import Mathlib

/-!
# Verification of futures-rs combinators (join, io::chain, task::spawn)

Shallow embedding of three components of `futures-util`:

* `future/join.rs` — the macro-generated `Join`/`Join3`/`Join4`/`Join5`
  combinators built on the `MaybeDone` operand holder;
* `io/chain.rs` — the `Chain` reader with its `poll_read`,
  `poll_read_vectored`, `poll_fill_buf` and `consume` operations;
* `task/spawn.rs` — `SpawnExt::spawn`/`spawn_with_handle` and the local
  variants.

An asynchronous operation is modelled as a pure state machine
`σ → σ × Poll α`: one `poll` consumes the current state and yields the next
state together with either `Pending` or `Ready value`.  The opaque waker
context `cx` carries no information that the combinators inspect, so it is
dropped from the embedding.  Rust panics (contract violations such as
polling a `Gone` holder or unwrapping a missing output) are modelled by an
`Option` result at the combinator level, `none` meaning a panic.
-/

set_option autoImplicit false

namespace FuturesRs

/-- Result of polling an asynchronous operation: `core::task::Poll`. -/
inductive Poll (α : Type) where
  | Pending : Poll α
  | Ready : α → Poll α
deriving Repr, DecidableEq

namespace Poll

/-- `Poll::is_ready`. -/
def is_ready {α : Type} : Poll α → Bool
  | Pending => false
  | Ready _ => true

@[simp] theorem is_ready_Pending {α : Type} : (Pending : Poll α).is_ready = false := rfl

@[simp] theorem is_ready_Ready {α : Type} (a : α) : (Ready a).is_ready = true := rfl

end Poll

/-- Modelled from the spec: the operand slot (`MaybeDone`, the "Holder"
primitive of §4.1) lives in `future/maybe_done.rs`, which is not part of the
sources here; only its contract is given.  States: `Future` (pending
operation, holding the operation's state), `Done` (value ready), `Gone`
(value taken, terminal). -/
inductive MaybeDone (σ α : Type) where
  | Future : σ → MaybeDone σ α
  | Done : α → MaybeDone σ α
  | Gone : MaybeDone σ α
deriving Repr, DecidableEq

namespace MaybeDone

/-- True exactly in the `Future` (still pending) state. -/
def isPending {σ α : Type} : MaybeDone σ α → Bool
  | Future _ => true
  | _ => false

/-- Modelled from the spec: `MaybeDone::poll` (§4.1 `poll_advance`).  If
`Future`, polls the wrapped operation with one step of `f`; on completion
transitions to `Done value`.  If already `Done`, reports readiness without
side effects.  Polling `Gone` is a contract violation (a panic in the Rust
source), modelled as `none`.  The result carries the new holder state, the
readiness report, and a flag recording whether the wrapped operation was
actually advanced this call (true exactly in the `Future` case). -/
def poll {σ α : Type} (f : σ → σ × Poll α) :
    MaybeDone σ α → Option (MaybeDone σ α × Poll Unit × Bool)
  | Future s =>
    match f s with
    | (s1, Poll.Pending) => some (Future s1, Poll.Pending, true)
    | (_, Poll.Ready v) => some (Done v, Poll.Ready (), true)
  | Done v => some (Done v, Poll.Ready (), false)
  | Gone => none

/-- Modelled from the spec: `MaybeDone::take_output` (§4.1 `take`).  Moves
the value out of a `Done` holder, leaving `Gone`; in every other state
returns `none` and leaves the state unchanged. -/
def take_output {σ α : Type} : MaybeDone σ α → MaybeDone σ α × Option α
  | Done v => (Gone, some v)
  | m => (m, none)

theorem poll_stepped {σ α : Type} (f : σ → σ × Poll α) (m m' : MaybeDone σ α)
    (r : Poll Unit) (p : Bool) (h : m.poll f = some (m', r, p)) :
    p = m.isPending := by
  cases m with
  | Future s =>
    rcases hf : f s with ⟨s1, r1⟩
    cases r1 <;> simp [poll, hf, isPending] at h ⊢ <;> simp_all
  | Done v => simp [poll, isPending] at h ⊢; simp_all
  | Gone => simp [poll] at h

theorem poll_ready {σ α : Type} (f : σ → σ × Poll α) (m m' : MaybeDone σ α)
    (u : Unit) (p : Bool) (h : m.poll f = some (m', Poll.Ready u, p)) :
    ∃ v, m' = Done v := by
  cases m with
  | Future s =>
    rcases hf : f s with ⟨s1, r1⟩
    cases r1 with
    | Pending => simp [poll, hf] at h
    | Ready v => simp [poll, hf] at h; exact ⟨v, h.1.symm⟩
  | Done v => simp [poll] at h; exact ⟨v, h.1.symm⟩
  | Gone => simp [poll] at h

theorem poll_of_done {σ α : Type} (f : σ → σ × Poll α) (v : α) :
    (Done v : MaybeDone σ α).poll f = some (Done v, Poll.Ready (), false) := rfl

@[simp] theorem take_output_done {σ α : Type} (v : α) :
    (Done v : MaybeDone σ α).take_output = (Gone, some v) := rfl

end MaybeDone

/-! ## Join (arity 2), from `future/join.rs`

The macro `generate!` produces, for each arity, a struct with one
`MaybeDone` field per operand and a `poll` that folds
`all_done &= self.$Fut().poll(cx).is_ready()` over the fields in
declaration order and, when `all_done`, takes every output (unwrapping).
Each embedded `poll` additionally returns the list of 1-based operand
indices whose wrapped operation was advanced this call, in the order the
macro-expanded statements execute; this instruments the call order without
changing any computed state or result. -/

/-- `Join<Fut1, Fut2>`: two `MaybeDone` slots, in declaration order. -/
structure Join (σ1 α1 σ2 α2 : Type) where
  Fut1 : MaybeDone σ1 α1
  Fut2 : MaybeDone σ2 α2
deriving Repr, DecidableEq

/-- `Join::new`. -/
def Join.new {σ1 α1 σ2 α2 : Type} (f1 : σ1) (f2 : σ2) : Join σ1 α1 σ2 α2 :=
  ⟨MaybeDone.Future f1, MaybeDone.Future f2⟩

/-- `<Join as Future>::poll`: polls both slots in declaration order
(`all_done &= self.Fut1().poll(cx).is_ready(); all_done &= ...`), then either
takes both outputs (`take_output().unwrap()`, panic modelled as `none`) or
returns `Pending` with the advanced slots in place. -/
def Join.poll {σ1 α1 σ2 α2 : Type}
    (g1 : σ1 → σ1 × Poll α1) (g2 : σ2 → σ2 × Poll α2)
    (st : Join σ1 α1 σ2 α2) :
    Option (Join σ1 α1 σ2 α2 × Poll (α1 × α2) × List Nat) :=
  match st.Fut1.poll g1 with
  | none => none
  | some (m1, r1, p1) =>
    match st.Fut2.poll g2 with
    | none => none
    | some (m2, r2, p2) =>
      let all_done := true && r1.is_ready && r2.is_ready
      let tr := (if p1 then [1] else []) ++ (if p2 then [2] else [])
      if all_done then
        match m1.take_output, m2.take_output with
        | (t1, some v1), (t2, some v2) =>
          some (⟨t1, t2⟩, Poll.Ready (v1, v2), tr)
        | _, _ => none
      else
        some (⟨m1, m2⟩, Poll.Pending, tr)

/-- `Join3<Fut1, Fut2, Fut3>`. -/
structure Join3 (σ1 α1 σ2 α2 σ3 α3 : Type) where
  Fut1 : MaybeDone σ1 α1
  Fut2 : MaybeDone σ2 α2
  Fut3 : MaybeDone σ3 α3
deriving Repr, DecidableEq

/-- `Join3::new`. -/
def Join3.new {σ1 α1 σ2 α2 σ3 α3 : Type} (f1 : σ1) (f2 : σ2) (f3 : σ3) :
    Join3 σ1 α1 σ2 α2 σ3 α3 :=
  ⟨MaybeDone.Future f1, MaybeDone.Future f2, MaybeDone.Future f3⟩

/-- `<Join3 as Future>::poll`, same macro expansion at arity 3. -/
def Join3.poll {σ1 α1 σ2 α2 σ3 α3 : Type}
    (g1 : σ1 → σ1 × Poll α1) (g2 : σ2 → σ2 × Poll α2) (g3 : σ3 → σ3 × Poll α3)
    (st : Join3 σ1 α1 σ2 α2 σ3 α3) :
    Option (Join3 σ1 α1 σ2 α2 σ3 α3 × Poll (α1 × α2 × α3) × List Nat) :=
  match st.Fut1.poll g1 with
  | none => none
  | some (m1, r1, p1) =>
    match st.Fut2.poll g2 with
    | none => none
    | some (m2, r2, p2) =>
      match st.Fut3.poll g3 with
      | none => none
      | some (m3, r3, p3) =>
        let all_done := true && r1.is_ready && r2.is_ready && r3.is_ready
        let tr := (if p1 then [1] else []) ++ (if p2 then [2] else []) ++
          (if p3 then [3] else [])
        if all_done then
          match m1.take_output, m2.take_output, m3.take_output with
          | (t1, some v1), (t2, some v2), (t3, some v3) =>
            some (⟨t1, t2, t3⟩, Poll.Ready (v1, v2, v3), tr)
          | _, _, _ => none
        else
          some (⟨m1, m2, m3⟩, Poll.Pending, tr)

/-- `Join4<Fut1, Fut2, Fut3, Fut4>`. -/
structure Join4 (σ1 α1 σ2 α2 σ3 α3 σ4 α4 : Type) where
  Fut1 : MaybeDone σ1 α1
  Fut2 : MaybeDone σ2 α2
  Fut3 : MaybeDone σ3 α3
  Fut4 : MaybeDone σ4 α4
deriving Repr, DecidableEq

/-- `Join4::new`. -/
def Join4.new {σ1 α1 σ2 α2 σ3 α3 σ4 α4 : Type} (f1 : σ1) (f2 : σ2) (f3 : σ3)
    (f4 : σ4) : Join4 σ1 α1 σ2 α2 σ3 α3 σ4 α4 :=
  ⟨MaybeDone.Future f1, MaybeDone.Future f2, MaybeDone.Future f3,
    MaybeDone.Future f4⟩

/-- `<Join4 as Future>::poll`, same macro expansion at arity 4. -/
def Join4.poll {σ1 α1 σ2 α2 σ3 α3 σ4 α4 : Type}
    (g1 : σ1 → σ1 × Poll α1) (g2 : σ2 → σ2 × Poll α2) (g3 : σ3 → σ3 × Poll α3)
    (g4 : σ4 → σ4 × Poll α4) (st : Join4 σ1 α1 σ2 α2 σ3 α3 σ4 α4) :
    Option (Join4 σ1 α1 σ2 α2 σ3 α3 σ4 α4 × Poll (α1 × α2 × α3 × α4) × List Nat) :=
  match st.Fut1.poll g1 with
  | none => none
  | some (m1, r1, p1) =>
    match st.Fut2.poll g2 with
    | none => none
    | some (m2, r2, p2) =>
      match st.Fut3.poll g3 with
      | none => none
      | some (m3, r3, p3) =>
        match st.Fut4.poll g4 with
        | none => none
        | some (m4, r4, p4) =>
          let all_done := true && r1.is_ready && r2.is_ready && r3.is_ready &&
            r4.is_ready
          let tr := (if p1 then [1] else []) ++ (if p2 then [2] else []) ++
            (if p3 then [3] else []) ++ (if p4 then [4] else [])
          if all_done then
            match m1.take_output, m2.take_output, m3.take_output,
                m4.take_output with
            | (t1, some v1), (t2, some v2), (t3, some v3), (t4, some v4) =>
              some (⟨t1, t2, t3, t4⟩, Poll.Ready (v1, v2, v3, v4), tr)
            | _, _, _, _ => none
          else
            some (⟨m1, m2, m3, m4⟩, Poll.Pending, tr)

/-- `Join5<Fut1, Fut2, Fut3, Fut4, Fut5>`. -/
structure Join5 (σ1 α1 σ2 α2 σ3 α3 σ4 α4 σ5 α5 : Type) where
  Fut1 : MaybeDone σ1 α1
  Fut2 : MaybeDone σ2 α2
  Fut3 : MaybeDone σ3 α3
  Fut4 : MaybeDone σ4 α4
  Fut5 : MaybeDone σ5 α5
deriving Repr, DecidableEq

/-- `Join5::new`. -/
def Join5.new {σ1 α1 σ2 α2 σ3 α3 σ4 α4 σ5 α5 : Type} (f1 : σ1) (f2 : σ2)
    (f3 : σ3) (f4 : σ4) (f5 : σ5) : Join5 σ1 α1 σ2 α2 σ3 α3 σ4 α4 σ5 α5 :=
  ⟨MaybeDone.Future f1, MaybeDone.Future f2, MaybeDone.Future f3,
    MaybeDone.Future f4, MaybeDone.Future f5⟩

/-- `<Join5 as Future>::poll`, same macro expansion at arity 5. -/
def Join5.poll {σ1 α1 σ2 α2 σ3 α3 σ4 α4 σ5 α5 : Type}
    (g1 : σ1 → σ1 × Poll α1) (g2 : σ2 → σ2 × Poll α2) (g3 : σ3 → σ3 × Poll α3)
    (g4 : σ4 → σ4 × Poll α4) (g5 : σ5 → σ5 × Poll α5)
    (st : Join5 σ1 α1 σ2 α2 σ3 α3 σ4 α4 σ5 α5) :
    Option (Join5 σ1 α1 σ2 α2 σ3 α3 σ4 α4 σ5 α5 ×
      Poll (α1 × α2 × α3 × α4 × α5) × List Nat) :=
  match st.Fut1.poll g1 with
  | none => none
  | some (m1, r1, p1) =>
    match st.Fut2.poll g2 with
    | none => none
    | some (m2, r2, p2) =>
      match st.Fut3.poll g3 with
      | none => none
      | some (m3, r3, p3) =>
        match st.Fut4.poll g4 with
        | none => none
        | some (m4, r4, p4) =>
          match st.Fut5.poll g5 with
          | none => none
          | some (m5, r5, p5) =>
            let all_done := true && r1.is_ready && r2.is_ready &&
              r3.is_ready && r4.is_ready && r5.is_ready
            let tr := (if p1 then [1] else []) ++ (if p2 then [2] else []) ++
              (if p3 then [3] else []) ++ (if p4 then [4] else []) ++
              (if p5 then [5] else [])
            if all_done then
              match m1.take_output, m2.take_output, m3.take_output,
                  m4.take_output, m5.take_output with
              | (t1, some v1), (t2, some v2), (t3, some v3), (t4, some v4),
                  (t5, some v5) =>
                some (⟨t1, t2, t3, t4, t5⟩, Poll.Ready (v1, v2, v3, v4, v5), tr)
              | _, _, _, _, _ => none
            else
              some (⟨m1, m2, m3, m4, m5⟩, Poll.Pending, tr)

theorem Poll.ready_of_is_ready (r : Poll Unit) (h : r.is_ready = true) :
    r = Poll.Ready () := by
  cases r with
  | Pending => simp [Poll.is_ready] at h
  | Ready u => cases u; rfl

theorem trace_facts2 (b1 b2 : Bool) :
    ((if b1 then [1] else []) ++ (if b2 then [2] else [])).Sublist [1, 2] ∧
      (1 ∈ (if b1 then [1] else []) ++ (if b2 then [2] else []) ↔ b1 = true) ∧
      (2 ∈ (if b1 then [1] else []) ++ (if b2 then [2] else []) ↔ b2 = true) := by
  cases b1 <;> cases b2 <;> decide

theorem Join.poll_pending_eq2 {σ1 α1 σ2 α2 : Type}
    (g1 : σ1 → σ1 × Poll α1) (g2 : σ2 → σ2 × Poll α2)
    (st : Join σ1 α1 σ2 α2)
    (m1 : MaybeDone σ1 α1) (r1 : Poll Unit) (p1 : Bool)
    (m2 : MaybeDone σ2 α2) (r2 : Poll Unit) (p2 : Bool)
    (h1 : st.Fut1.poll g1 = some (m1, r1, p1))
    (h2 : st.Fut2.poll g2 = some (m2, r2, p2))
    (hc : (true && r1.is_ready && r2.is_ready) = false) :
    Join.poll g1 g2 st = some (⟨m1, m2⟩, Poll.Pending,
      (if p1 then [1] else []) ++ (if p2 then [2] else [])) := by
  unfold Join.poll
  rw [h1, h2]
  simp only [hc]
  rfl

theorem Join.poll_ready_eq2 {σ1 α1 σ2 α2 : Type}
    (g1 : σ1 → σ1 × Poll α1) (g2 : σ2 → σ2 × Poll α2)
    (st : Join σ1 α1 σ2 α2)
    (m1 : MaybeDone σ1 α1) (r1 : Poll Unit) (p1 : Bool)
    (m2 : MaybeDone σ2 α2) (r2 : Poll Unit) (p2 : Bool)
    (h1 : st.Fut1.poll g1 = some (m1, r1, p1))
    (h2 : st.Fut2.poll g2 = some (m2, r2, p2))
    (hc : (true && r1.is_ready && r2.is_ready) = true) :
    ∃ v1 v2, m1 = MaybeDone.Done v1 ∧ m2 = MaybeDone.Done v2 ∧
      Join.poll g1 g2 st = some (⟨MaybeDone.Gone, MaybeDone.Gone⟩,
        Poll.Ready (v1, v2),
        (if p1 then [1] else []) ++ (if p2 then [2] else [])) := by
  have hb : r1.is_ready = true ∧ r2.is_ready = true := by
    simpa [Bool.and_eq_true] using hc
  rw [Poll.ready_of_is_ready r1 hb.1] at h1
  rw [Poll.ready_of_is_ready r2 hb.2] at h2
  obtain ⟨v1, hv1⟩ := MaybeDone.poll_ready g1 st.Fut1 m1 () p1 h1
  obtain ⟨v2, hv2⟩ := MaybeDone.poll_ready g2 st.Fut2 m2 () p2 h2
  subst hv1
  subst hv2
  refine ⟨v1, v2, rfl, rfl, ?_⟩
  unfold Join.poll
  rw [h1, h2]
  rfl


theorem trace_facts3 (b1 : Bool) (b2 : Bool) (b3 : Bool) :
    ((if b1 then [1] else []) ++ (if b2 then [2] else []) ++ (if b3 then [3] else [])).Sublist [1, 2, 3] ∧
      (1 ∈ (if b1 then [1] else []) ++ (if b2 then [2] else []) ++ (if b3 then [3] else []) ↔ b1 = true) ∧
      (2 ∈ (if b1 then [1] else []) ++ (if b2 then [2] else []) ++ (if b3 then [3] else []) ↔ b2 = true) ∧
      (3 ∈ (if b1 then [1] else []) ++ (if b2 then [2] else []) ++ (if b3 then [3] else []) ↔ b3 = true) := by
  cases b1 <;> cases b2 <;> cases b3 <;> decide

theorem trace_facts4 (b1 : Bool) (b2 : Bool) (b3 : Bool) (b4 : Bool) :
    ((if b1 then [1] else []) ++ (if b2 then [2] else []) ++ (if b3 then [3] else []) ++ (if b4 then [4] else [])).Sublist [1, 2, 3, 4] ∧
      (1 ∈ (if b1 then [1] else []) ++ (if b2 then [2] else []) ++ (if b3 then [3] else []) ++ (if b4 then [4] else []) ↔ b1 = true) ∧
      (2 ∈ (if b1 then [1] else []) ++ (if b2 then [2] else []) ++ (if b3 then [3] else []) ++ (if b4 then [4] else []) ↔ b2 = true) ∧
      (3 ∈ (if b1 then [1] else []) ++ (if b2 then [2] else []) ++ (if b3 then [3] else []) ++ (if b4 then [4] else []) ↔ b3 = true) ∧
      (4 ∈ (if b1 then [1] else []) ++ (if b2 then [2] else []) ++ (if b3 then [3] else []) ++ (if b4 then [4] else []) ↔ b4 = true) := by
  cases b1 <;> cases b2 <;> cases b3 <;> cases b4 <;> decide

theorem trace_facts5 (b1 : Bool) (b2 : Bool) (b3 : Bool) (b4 : Bool) (b5 : Bool) :
    ((if b1 then [1] else []) ++ (if b2 then [2] else []) ++ (if b3 then [3] else []) ++ (if b4 then [4] else []) ++ (if b5 then [5] else [])).Sublist [1, 2, 3, 4, 5] ∧
      (1 ∈ (if b1 then [1] else []) ++ (if b2 then [2] else []) ++ (if b3 then [3] else []) ++ (if b4 then [4] else []) ++ (if b5 then [5] else []) ↔ b1 = true) ∧
      (2 ∈ (if b1 then [1] else []) ++ (if b2 then [2] else []) ++ (if b3 then [3] else []) ++ (if b4 then [4] else []) ++ (if b5 then [5] else []) ↔ b2 = true) ∧
      (3 ∈ (if b1 then [1] else []) ++ (if b2 then [2] else []) ++ (if b3 then [3] else []) ++ (if b4 then [4] else []) ++ (if b5 then [5] else []) ↔ b3 = true) ∧
      (4 ∈ (if b1 then [1] else []) ++ (if b2 then [2] else []) ++ (if b3 then [3] else []) ++ (if b4 then [4] else []) ++ (if b5 then [5] else []) ↔ b4 = true) ∧
      (5 ∈ (if b1 then [1] else []) ++ (if b2 then [2] else []) ++ (if b3 then [3] else []) ++ (if b4 then [4] else []) ++ (if b5 then [5] else []) ↔ b5 = true) := by
  cases b1 <;> cases b2 <;> cases b3 <;> cases b4 <;> cases b5 <;> decide

theorem Join3.poll_pending_eq3 {σ1 α1 σ2 α2 σ3 α3 : Type}
    (g1 : σ1 → σ1 × Poll α1) (g2 : σ2 → σ2 × Poll α2) (g3 : σ3 → σ3 × Poll α3)
    (st : Join3 σ1 α1 σ2 α2 σ3 α3)
    (m1 : MaybeDone σ1 α1) (r1 : Poll Unit) (p1 : Bool)
    (m2 : MaybeDone σ2 α2) (r2 : Poll Unit) (p2 : Bool)
    (m3 : MaybeDone σ3 α3) (r3 : Poll Unit) (p3 : Bool)
    (h1 : st.Fut1.poll g1 = some (m1, r1, p1))
    (h2 : st.Fut2.poll g2 = some (m2, r2, p2))
    (h3 : st.Fut3.poll g3 = some (m3, r3, p3))
    (hc : (true && r1.is_ready && r2.is_ready && r3.is_ready) = false) :
    Join3.poll g1 g2 g3 st = some (⟨m1, m2, m3⟩, Poll.Pending,
      (if p1 then [1] else []) ++
        (if p2 then [2] else []) ++
        (if p3 then [3] else [])) := by
  unfold Join3.poll
  rw [h1, h2, h3]
  simp only [hc]
  rfl

theorem Join3.poll_ready_eq3 {σ1 α1 σ2 α2 σ3 α3 : Type}
    (g1 : σ1 → σ1 × Poll α1) (g2 : σ2 → σ2 × Poll α2) (g3 : σ3 → σ3 × Poll α3)
    (st : Join3 σ1 α1 σ2 α2 σ3 α3)
    (m1 : MaybeDone σ1 α1) (r1 : Poll Unit) (p1 : Bool)
    (m2 : MaybeDone σ2 α2) (r2 : Poll Unit) (p2 : Bool)
    (m3 : MaybeDone σ3 α3) (r3 : Poll Unit) (p3 : Bool)
    (h1 : st.Fut1.poll g1 = some (m1, r1, p1))
    (h2 : st.Fut2.poll g2 = some (m2, r2, p2))
    (h3 : st.Fut3.poll g3 = some (m3, r3, p3))
    (hc : (true && r1.is_ready && r2.is_ready && r3.is_ready) = true) :
    ∃ v1 v2 v3, m1 = MaybeDone.Done v1 ∧ m2 = MaybeDone.Done v2 ∧ m3 = MaybeDone.Done v3 ∧
      Join3.poll g1 g2 g3 st = some (⟨MaybeDone.Gone, MaybeDone.Gone, MaybeDone.Gone⟩,
        Poll.Ready (v1, v2, v3),
        (if p1 then [1] else []) ++
        (if p2 then [2] else []) ++
        (if p3 then [3] else [])) := by
  have hb : r1.is_ready = true ∧ r2.is_ready = true ∧ r3.is_ready = true := by
    simpa [Bool.and_eq_true, and_assoc] using hc
  rw [Poll.ready_of_is_ready r1 hb.1] at h1
  rw [Poll.ready_of_is_ready r2 hb.2.1] at h2
  rw [Poll.ready_of_is_ready r3 hb.2.2] at h3
  obtain ⟨v1, hv1⟩ := MaybeDone.poll_ready g1 st.Fut1 m1 () p1 h1
  obtain ⟨v2, hv2⟩ := MaybeDone.poll_ready g2 st.Fut2 m2 () p2 h2
  obtain ⟨v3, hv3⟩ := MaybeDone.poll_ready g3 st.Fut3 m3 () p3 h3
  subst hv1
  subst hv2
  subst hv3
  refine ⟨v1, v2, v3, rfl, rfl, rfl, ?_⟩
  unfold Join3.poll
  rw [h1, h2, h3]
  rfl

theorem Join4.poll_pending_eq4 {σ1 α1 σ2 α2 σ3 α3 σ4 α4 : Type}
    (g1 : σ1 → σ1 × Poll α1) (g2 : σ2 → σ2 × Poll α2) (g3 : σ3 → σ3 × Poll α3) (g4 : σ4 → σ4 × Poll α4)
    (st : Join4 σ1 α1 σ2 α2 σ3 α3 σ4 α4)
    (m1 : MaybeDone σ1 α1) (r1 : Poll Unit) (p1 : Bool)
    (m2 : MaybeDone σ2 α2) (r2 : Poll Unit) (p2 : Bool)
    (m3 : MaybeDone σ3 α3) (r3 : Poll Unit) (p3 : Bool)
    (m4 : MaybeDone σ4 α4) (r4 : Poll Unit) (p4 : Bool)
    (h1 : st.Fut1.poll g1 = some (m1, r1, p1))
    (h2 : st.Fut2.poll g2 = some (m2, r2, p2))
    (h3 : st.Fut3.poll g3 = some (m3, r3, p3))
    (h4 : st.Fut4.poll g4 = some (m4, r4, p4))
    (hc : (true && r1.is_ready && r2.is_ready && r3.is_ready && r4.is_ready) = false) :
    Join4.poll g1 g2 g3 g4 st = some (⟨m1, m2, m3, m4⟩, Poll.Pending,
      (if p1 then [1] else []) ++
        (if p2 then [2] else []) ++
        (if p3 then [3] else []) ++
        (if p4 then [4] else [])) := by
  unfold Join4.poll
  rw [h1, h2, h3, h4]
  simp only [hc]
  rfl

theorem Join4.poll_ready_eq4 {σ1 α1 σ2 α2 σ3 α3 σ4 α4 : Type}
    (g1 : σ1 → σ1 × Poll α1) (g2 : σ2 → σ2 × Poll α2) (g3 : σ3 → σ3 × Poll α3) (g4 : σ4 → σ4 × Poll α4)
    (st : Join4 σ1 α1 σ2 α2 σ3 α3 σ4 α4)
    (m1 : MaybeDone σ1 α1) (r1 : Poll Unit) (p1 : Bool)
    (m2 : MaybeDone σ2 α2) (r2 : Poll Unit) (p2 : Bool)
    (m3 : MaybeDone σ3 α3) (r3 : Poll Unit) (p3 : Bool)
    (m4 : MaybeDone σ4 α4) (r4 : Poll Unit) (p4 : Bool)
    (h1 : st.Fut1.poll g1 = some (m1, r1, p1))
    (h2 : st.Fut2.poll g2 = some (m2, r2, p2))
    (h3 : st.Fut3.poll g3 = some (m3, r3, p3))
    (h4 : st.Fut4.poll g4 = some (m4, r4, p4))
    (hc : (true && r1.is_ready && r2.is_ready && r3.is_ready && r4.is_ready) = true) :
    ∃ v1 v2 v3 v4, m1 = MaybeDone.Done v1 ∧ m2 = MaybeDone.Done v2 ∧ m3 = MaybeDone.Done v3 ∧ m4 = MaybeDone.Done v4 ∧
      Join4.poll g1 g2 g3 g4 st = some (⟨MaybeDone.Gone, MaybeDone.Gone, MaybeDone.Gone, MaybeDone.Gone⟩,
        Poll.Ready (v1, v2, v3, v4),
        (if p1 then [1] else []) ++
        (if p2 then [2] else []) ++
        (if p3 then [3] else []) ++
        (if p4 then [4] else [])) := by
  have hb : r1.is_ready = true ∧ r2.is_ready = true ∧ r3.is_ready = true ∧ r4.is_ready = true := by
    simpa [Bool.and_eq_true, and_assoc] using hc
  rw [Poll.ready_of_is_ready r1 hb.1] at h1
  rw [Poll.ready_of_is_ready r2 hb.2.1] at h2
  rw [Poll.ready_of_is_ready r3 hb.2.2.1] at h3
  rw [Poll.ready_of_is_ready r4 hb.2.2.2] at h4
  obtain ⟨v1, hv1⟩ := MaybeDone.poll_ready g1 st.Fut1 m1 () p1 h1
  obtain ⟨v2, hv2⟩ := MaybeDone.poll_ready g2 st.Fut2 m2 () p2 h2
  obtain ⟨v3, hv3⟩ := MaybeDone.poll_ready g3 st.Fut3 m3 () p3 h3
  obtain ⟨v4, hv4⟩ := MaybeDone.poll_ready g4 st.Fut4 m4 () p4 h4
  subst hv1
  subst hv2
  subst hv3
  subst hv4
  refine ⟨v1, v2, v3, v4, rfl, rfl, rfl, rfl, ?_⟩
  unfold Join4.poll
  rw [h1, h2, h3, h4]
  rfl

theorem Join5.poll_pending_eq5 {σ1 α1 σ2 α2 σ3 α3 σ4 α4 σ5 α5 : Type}
    (g1 : σ1 → σ1 × Poll α1) (g2 : σ2 → σ2 × Poll α2) (g3 : σ3 → σ3 × Poll α3) (g4 : σ4 → σ4 × Poll α4) (g5 : σ5 → σ5 × Poll α5)
    (st : Join5 σ1 α1 σ2 α2 σ3 α3 σ4 α4 σ5 α5)
    (m1 : MaybeDone σ1 α1) (r1 : Poll Unit) (p1 : Bool)
    (m2 : MaybeDone σ2 α2) (r2 : Poll Unit) (p2 : Bool)
    (m3 : MaybeDone σ3 α3) (r3 : Poll Unit) (p3 : Bool)
    (m4 : MaybeDone σ4 α4) (r4 : Poll Unit) (p4 : Bool)
    (m5 : MaybeDone σ5 α5) (r5 : Poll Unit) (p5 : Bool)
    (h1 : st.Fut1.poll g1 = some (m1, r1, p1))
    (h2 : st.Fut2.poll g2 = some (m2, r2, p2))
    (h3 : st.Fut3.poll g3 = some (m3, r3, p3))
    (h4 : st.Fut4.poll g4 = some (m4, r4, p4))
    (h5 : st.Fut5.poll g5 = some (m5, r5, p5))
    (hc : (true && r1.is_ready && r2.is_ready && r3.is_ready && r4.is_ready && r5.is_ready) = false) :
    Join5.poll g1 g2 g3 g4 g5 st = some (⟨m1, m2, m3, m4, m5⟩, Poll.Pending,
      (if p1 then [1] else []) ++
        (if p2 then [2] else []) ++
        (if p3 then [3] else []) ++
        (if p4 then [4] else []) ++
        (if p5 then [5] else [])) := by
  unfold Join5.poll
  rw [h1, h2, h3, h4, h5]
  simp only [hc]
  rfl

theorem Join5.poll_ready_eq5 {σ1 α1 σ2 α2 σ3 α3 σ4 α4 σ5 α5 : Type}
    (g1 : σ1 → σ1 × Poll α1) (g2 : σ2 → σ2 × Poll α2) (g3 : σ3 → σ3 × Poll α3) (g4 : σ4 → σ4 × Poll α4) (g5 : σ5 → σ5 × Poll α5)
    (st : Join5 σ1 α1 σ2 α2 σ3 α3 σ4 α4 σ5 α5)
    (m1 : MaybeDone σ1 α1) (r1 : Poll Unit) (p1 : Bool)
    (m2 : MaybeDone σ2 α2) (r2 : Poll Unit) (p2 : Bool)
    (m3 : MaybeDone σ3 α3) (r3 : Poll Unit) (p3 : Bool)
    (m4 : MaybeDone σ4 α4) (r4 : Poll Unit) (p4 : Bool)
    (m5 : MaybeDone σ5 α5) (r5 : Poll Unit) (p5 : Bool)
    (h1 : st.Fut1.poll g1 = some (m1, r1, p1))
    (h2 : st.Fut2.poll g2 = some (m2, r2, p2))
    (h3 : st.Fut3.poll g3 = some (m3, r3, p3))
    (h4 : st.Fut4.poll g4 = some (m4, r4, p4))
    (h5 : st.Fut5.poll g5 = some (m5, r5, p5))
    (hc : (true && r1.is_ready && r2.is_ready && r3.is_ready && r4.is_ready && r5.is_ready) = true) :
    ∃ v1 v2 v3 v4 v5, m1 = MaybeDone.Done v1 ∧ m2 = MaybeDone.Done v2 ∧ m3 = MaybeDone.Done v3 ∧ m4 = MaybeDone.Done v4 ∧ m5 = MaybeDone.Done v5 ∧
      Join5.poll g1 g2 g3 g4 g5 st = some (⟨MaybeDone.Gone, MaybeDone.Gone, MaybeDone.Gone, MaybeDone.Gone, MaybeDone.Gone⟩,
        Poll.Ready (v1, v2, v3, v4, v5),
        (if p1 then [1] else []) ++
        (if p2 then [2] else []) ++
        (if p3 then [3] else []) ++
        (if p4 then [4] else []) ++
        (if p5 then [5] else [])) := by
  have hb : r1.is_ready = true ∧ r2.is_ready = true ∧ r3.is_ready = true ∧ r4.is_ready = true ∧ r5.is_ready = true := by
    simpa [Bool.and_eq_true, and_assoc] using hc
  rw [Poll.ready_of_is_ready r1 hb.1] at h1
  rw [Poll.ready_of_is_ready r2 hb.2.1] at h2
  rw [Poll.ready_of_is_ready r3 hb.2.2.1] at h3
  rw [Poll.ready_of_is_ready r4 hb.2.2.2.1] at h4
  rw [Poll.ready_of_is_ready r5 hb.2.2.2.2] at h5
  obtain ⟨v1, hv1⟩ := MaybeDone.poll_ready g1 st.Fut1 m1 () p1 h1
  obtain ⟨v2, hv2⟩ := MaybeDone.poll_ready g2 st.Fut2 m2 () p2 h2
  obtain ⟨v3, hv3⟩ := MaybeDone.poll_ready g3 st.Fut3 m3 () p3 h3
  obtain ⟨v4, hv4⟩ := MaybeDone.poll_ready g4 st.Fut4 m4 () p4 h4
  obtain ⟨v5, hv5⟩ := MaybeDone.poll_ready g5 st.Fut5 m5 () p5 h5
  subst hv1
  subst hv2
  subst hv3
  subst hv4
  subst hv5
  refine ⟨v1, v2, v3, v4, v5, rfl, rfl, rfl, rfl, rfl, ?_⟩
  unfold Join5.poll
  rw [h1, h2, h3, h4, h5]
  rfl

/-- Concrete operation that never completes, producing `Nat`. -/
def opPending : Unit → Unit × Poll Nat := fun s => (s, Poll.Pending)

/-- Concrete operation that completes immediately with the given value. -/
def opReady (n : Nat) : Unit → Unit × Poll Nat := fun s => (s, Poll.Ready n)

/-- Claim C1: for every arity N in 2..5 and every state of the composite, a
single call to Join-N's `poll` advances every not-yet-ready operand exactly
once, in fixed declaration order (operand 1 first, operand N last), with no
short-circuiting: even when an earlier operand is still pending, every later
operand is still advanced in the same call.  The advance trace `tr` is a
sublist of `[1..N]` (declaration order, each operand at most once), contains
`i` exactly when operand `i` was not yet ready, and on a `Pending` turn each
slot holds exactly the result of its single advance. -/
theorem claim_C1_join_advances_all_in_order :
    (∀ (σ1 α1 : Type) (σ2 α2 : Type) (g1 : σ1 → σ1 × Poll α1) (g2 : σ2 → σ2 × Poll α2)
      (st st2 : Join σ1 α1 σ2 α2) (out : Poll (α1 × α2)) (tr : List Nat)
      (m1 : MaybeDone σ1 α1) (r1 : Poll Unit) (p1 : Bool) (m2 : MaybeDone σ2 α2) (r2 : Poll Unit) (p2 : Bool),
      st.Fut1.poll g1 = some (m1, r1, p1) →
      st.Fut2.poll g2 = some (m2, r2, p2) →
      Join.poll g1 g2 st = some (st2, out, tr) →
      tr.Sublist [1, 2] ∧
        (1 ∈ tr ↔ st.Fut1.isPending = true) ∧
        (2 ∈ tr ↔ st.Fut2.isPending = true) ∧
        (out = Poll.Pending → st2 = ⟨m1, m2⟩)) ∧
    (∀ (σ1 α1 : Type) (σ2 α2 : Type) (σ3 α3 : Type) (g1 : σ1 → σ1 × Poll α1) (g2 : σ2 → σ2 × Poll α2) (g3 : σ3 → σ3 × Poll α3)
      (st st2 : Join3 σ1 α1 σ2 α2 σ3 α3) (out : Poll (α1 × α2 × α3)) (tr : List Nat)
      (m1 : MaybeDone σ1 α1) (r1 : Poll Unit) (p1 : Bool) (m2 : MaybeDone σ2 α2) (r2 : Poll Unit) (p2 : Bool) (m3 : MaybeDone σ3 α3) (r3 : Poll Unit) (p3 : Bool),
      st.Fut1.poll g1 = some (m1, r1, p1) →
      st.Fut2.poll g2 = some (m2, r2, p2) →
      st.Fut3.poll g3 = some (m3, r3, p3) →
      Join3.poll g1 g2 g3 st = some (st2, out, tr) →
      tr.Sublist [1, 2, 3] ∧
        (1 ∈ tr ↔ st.Fut1.isPending = true) ∧
        (2 ∈ tr ↔ st.Fut2.isPending = true) ∧
        (3 ∈ tr ↔ st.Fut3.isPending = true) ∧
        (out = Poll.Pending → st2 = ⟨m1, m2, m3⟩)) ∧
    (∀ (σ1 α1 : Type) (σ2 α2 : Type) (σ3 α3 : Type) (σ4 α4 : Type) (g1 : σ1 → σ1 × Poll α1) (g2 : σ2 → σ2 × Poll α2) (g3 : σ3 → σ3 × Poll α3) (g4 : σ4 → σ4 × Poll α4)
      (st st2 : Join4 σ1 α1 σ2 α2 σ3 α3 σ4 α4) (out : Poll (α1 × α2 × α3 × α4)) (tr : List Nat)
      (m1 : MaybeDone σ1 α1) (r1 : Poll Unit) (p1 : Bool) (m2 : MaybeDone σ2 α2) (r2 : Poll Unit) (p2 : Bool) (m3 : MaybeDone σ3 α3) (r3 : Poll Unit) (p3 : Bool) (m4 : MaybeDone σ4 α4) (r4 : Poll Unit) (p4 : Bool),
      st.Fut1.poll g1 = some (m1, r1, p1) →
      st.Fut2.poll g2 = some (m2, r2, p2) →
      st.Fut3.poll g3 = some (m3, r3, p3) →
      st.Fut4.poll g4 = some (m4, r4, p4) →
      Join4.poll g1 g2 g3 g4 st = some (st2, out, tr) →
      tr.Sublist [1, 2, 3, 4] ∧
        (1 ∈ tr ↔ st.Fut1.isPending = true) ∧
        (2 ∈ tr ↔ st.Fut2.isPending = true) ∧
        (3 ∈ tr ↔ st.Fut3.isPending = true) ∧
        (4 ∈ tr ↔ st.Fut4.isPending = true) ∧
        (out = Poll.Pending → st2 = ⟨m1, m2, m3, m4⟩)) ∧
    (∀ (σ1 α1 : Type) (σ2 α2 : Type) (σ3 α3 : Type) (σ4 α4 : Type) (σ5 α5 : Type) (g1 : σ1 → σ1 × Poll α1) (g2 : σ2 → σ2 × Poll α2) (g3 : σ3 → σ3 × Poll α3) (g4 : σ4 → σ4 × Poll α4) (g5 : σ5 → σ5 × Poll α5)
      (st st2 : Join5 σ1 α1 σ2 α2 σ3 α3 σ4 α4 σ5 α5) (out : Poll (α1 × α2 × α3 × α4 × α5)) (tr : List Nat)
      (m1 : MaybeDone σ1 α1) (r1 : Poll Unit) (p1 : Bool) (m2 : MaybeDone σ2 α2) (r2 : Poll Unit) (p2 : Bool) (m3 : MaybeDone σ3 α3) (r3 : Poll Unit) (p3 : Bool) (m4 : MaybeDone σ4 α4) (r4 : Poll Unit) (p4 : Bool) (m5 : MaybeDone σ5 α5) (r5 : Poll Unit) (p5 : Bool),
      st.Fut1.poll g1 = some (m1, r1, p1) →
      st.Fut2.poll g2 = some (m2, r2, p2) →
      st.Fut3.poll g3 = some (m3, r3, p3) →
      st.Fut4.poll g4 = some (m4, r4, p4) →
      st.Fut5.poll g5 = some (m5, r5, p5) →
      Join5.poll g1 g2 g3 g4 g5 st = some (st2, out, tr) →
      tr.Sublist [1, 2, 3, 4, 5] ∧
        (1 ∈ tr ↔ st.Fut1.isPending = true) ∧
        (2 ∈ tr ↔ st.Fut2.isPending = true) ∧
        (3 ∈ tr ↔ st.Fut3.isPending = true) ∧
        (4 ∈ tr ↔ st.Fut4.isPending = true) ∧
        (5 ∈ tr ↔ st.Fut5.isPending = true) ∧
        (out = Poll.Pending → st2 = ⟨m1, m2, m3, m4, m5⟩)) := by
  refine ⟨?_, ?_, ?_, ?_⟩
  · intro σ1 α1 σ2 α2 g1 g2 st st2 out tr m1 r1 p1 m2 r2 p2 h1 h2 hpoll
    have hp1 := MaybeDone.poll_stepped g1 st.Fut1 m1 r1 p1 h1
    have hp2 := MaybeDone.poll_stepped g2 st.Fut2 m2 r2 p2 h2
    subst hp1
    subst hp2
    cases hc : (true && r1.is_ready && r2.is_ready) with
    | false =>
      have heq := Join.poll_pending_eq2 g1 g2 st m1 r1 _ m2 r2 _ h1 h2 hc
      rw [heq] at hpoll
      simp only [Option.some.injEq, Prod.mk.injEq] at hpoll
      obtain ⟨hst, hout, htr⟩ := hpoll
      subst hst
      subst hout
      subst htr
      have hT := trace_facts2 st.Fut1.isPending st.Fut2.isPending
      exact ⟨(hT.1), (hT.2.1), (hT.2.2), fun _ => rfl⟩
    | true =>
      obtain ⟨v1, v2, hd1, hd2, heq⟩ := Join.poll_ready_eq2 g1 g2 st m1 r1 _ m2 r2 _ h1 h2 hc
      rw [heq] at hpoll
      simp only [Option.some.injEq, Prod.mk.injEq] at hpoll
      obtain ⟨hst, hout, htr⟩ := hpoll
      subst hst
      subst hout
      subst htr
      have hT := trace_facts2 st.Fut1.isPending st.Fut2.isPending
      exact ⟨(hT.1), (hT.2.1), (hT.2.2), fun hcon => by cases hcon⟩
  · intro σ1 α1 σ2 α2 σ3 α3 g1 g2 g3 st st2 out tr m1 r1 p1 m2 r2 p2 m3 r3 p3 h1 h2 h3 hpoll
    have hp1 := MaybeDone.poll_stepped g1 st.Fut1 m1 r1 p1 h1
    have hp2 := MaybeDone.poll_stepped g2 st.Fut2 m2 r2 p2 h2
    have hp3 := MaybeDone.poll_stepped g3 st.Fut3 m3 r3 p3 h3
    subst hp1
    subst hp2
    subst hp3
    cases hc : (true && r1.is_ready && r2.is_ready && r3.is_ready) with
    | false =>
      have heq := Join3.poll_pending_eq3 g1 g2 g3 st m1 r1 _ m2 r2 _ m3 r3 _ h1 h2 h3 hc
      rw [heq] at hpoll
      simp only [Option.some.injEq, Prod.mk.injEq] at hpoll
      obtain ⟨hst, hout, htr⟩ := hpoll
      subst hst
      subst hout
      subst htr
      have hT := trace_facts3 st.Fut1.isPending st.Fut2.isPending st.Fut3.isPending
      exact ⟨(hT.1), (hT.2.1), (hT.2.2.1), (hT.2.2.2), fun _ => rfl⟩
    | true =>
      obtain ⟨v1, v2, v3, hd1, hd2, hd3, heq⟩ := Join3.poll_ready_eq3 g1 g2 g3 st m1 r1 _ m2 r2 _ m3 r3 _ h1 h2 h3 hc
      rw [heq] at hpoll
      simp only [Option.some.injEq, Prod.mk.injEq] at hpoll
      obtain ⟨hst, hout, htr⟩ := hpoll
      subst hst
      subst hout
      subst htr
      have hT := trace_facts3 st.Fut1.isPending st.Fut2.isPending st.Fut3.isPending
      exact ⟨(hT.1), (hT.2.1), (hT.2.2.1), (hT.2.2.2), fun hcon => by cases hcon⟩
  · intro σ1 α1 σ2 α2 σ3 α3 σ4 α4 g1 g2 g3 g4 st st2 out tr m1 r1 p1 m2 r2 p2 m3 r3 p3 m4 r4 p4 h1 h2 h3 h4 hpoll
    have hp1 := MaybeDone.poll_stepped g1 st.Fut1 m1 r1 p1 h1
    have hp2 := MaybeDone.poll_stepped g2 st.Fut2 m2 r2 p2 h2
    have hp3 := MaybeDone.poll_stepped g3 st.Fut3 m3 r3 p3 h3
    have hp4 := MaybeDone.poll_stepped g4 st.Fut4 m4 r4 p4 h4
    subst hp1
    subst hp2
    subst hp3
    subst hp4
    cases hc : (true && r1.is_ready && r2.is_ready && r3.is_ready && r4.is_ready) with
    | false =>
      have heq := Join4.poll_pending_eq4 g1 g2 g3 g4 st m1 r1 _ m2 r2 _ m3 r3 _ m4 r4 _ h1 h2 h3 h4 hc
      rw [heq] at hpoll
      simp only [Option.some.injEq, Prod.mk.injEq] at hpoll
      obtain ⟨hst, hout, htr⟩ := hpoll
      subst hst
      subst hout
      subst htr
      have hT := trace_facts4 st.Fut1.isPending st.Fut2.isPending st.Fut3.isPending st.Fut4.isPending
      exact ⟨(hT.1), (hT.2.1), (hT.2.2.1), (hT.2.2.2.1), (hT.2.2.2.2), fun _ => rfl⟩
    | true =>
      obtain ⟨v1, v2, v3, v4, hd1, hd2, hd3, hd4, heq⟩ := Join4.poll_ready_eq4 g1 g2 g3 g4 st m1 r1 _ m2 r2 _ m3 r3 _ m4 r4 _ h1 h2 h3 h4 hc
      rw [heq] at hpoll
      simp only [Option.some.injEq, Prod.mk.injEq] at hpoll
      obtain ⟨hst, hout, htr⟩ := hpoll
      subst hst
      subst hout
      subst htr
      have hT := trace_facts4 st.Fut1.isPending st.Fut2.isPending st.Fut3.isPending st.Fut4.isPending
      exact ⟨(hT.1), (hT.2.1), (hT.2.2.1), (hT.2.2.2.1), (hT.2.2.2.2), fun hcon => by cases hcon⟩
  · intro σ1 α1 σ2 α2 σ3 α3 σ4 α4 σ5 α5 g1 g2 g3 g4 g5 st st2 out tr m1 r1 p1 m2 r2 p2 m3 r3 p3 m4 r4 p4 m5 r5 p5 h1 h2 h3 h4 h5 hpoll
    have hp1 := MaybeDone.poll_stepped g1 st.Fut1 m1 r1 p1 h1
    have hp2 := MaybeDone.poll_stepped g2 st.Fut2 m2 r2 p2 h2
    have hp3 := MaybeDone.poll_stepped g3 st.Fut3 m3 r3 p3 h3
    have hp4 := MaybeDone.poll_stepped g4 st.Fut4 m4 r4 p4 h4
    have hp5 := MaybeDone.poll_stepped g5 st.Fut5 m5 r5 p5 h5
    subst hp1
    subst hp2
    subst hp3
    subst hp4
    subst hp5
    cases hc : (true && r1.is_ready && r2.is_ready && r3.is_ready && r4.is_ready && r5.is_ready) with
    | false =>
      have heq := Join5.poll_pending_eq5 g1 g2 g3 g4 g5 st m1 r1 _ m2 r2 _ m3 r3 _ m4 r4 _ m5 r5 _ h1 h2 h3 h4 h5 hc
      rw [heq] at hpoll
      simp only [Option.some.injEq, Prod.mk.injEq] at hpoll
      obtain ⟨hst, hout, htr⟩ := hpoll
      subst hst
      subst hout
      subst htr
      have hT := trace_facts5 st.Fut1.isPending st.Fut2.isPending st.Fut3.isPending st.Fut4.isPending st.Fut5.isPending
      exact ⟨(hT.1), (hT.2.1), (hT.2.2.1), (hT.2.2.2.1), (hT.2.2.2.2.1), (hT.2.2.2.2.2), fun _ => rfl⟩
    | true =>
      obtain ⟨v1, v2, v3, v4, v5, hd1, hd2, hd3, hd4, hd5, heq⟩ := Join5.poll_ready_eq5 g1 g2 g3 g4 g5 st m1 r1 _ m2 r2 _ m3 r3 _ m4 r4 _ m5 r5 _ h1 h2 h3 h4 h5 hc
      rw [heq] at hpoll
      simp only [Option.some.injEq, Prod.mk.injEq] at hpoll
      obtain ⟨hst, hout, htr⟩ := hpoll
      subst hst
      subst hout
      subst htr
      have hT := trace_facts5 st.Fut1.isPending st.Fut2.isPending st.Fut3.isPending st.Fut4.isPending st.Fut5.isPending
      exact ⟨(hT.1), (hT.2.1), (hT.2.2.1), (hT.2.2.2.1), (hT.2.2.2.2.1), (hT.2.2.2.2.2), fun hcon => by cases hcon⟩

/-- Claim C2: for every arity N in 2..5, Join-N's `poll` returns `Pending`
exactly when some operand is not yet ready after this turn's advances, and
returns `Ready` with the N-tuple of results on the turn on which all
operands are ready; on that completing turn every operand's value is taken
exactly once (every slot ends `Gone`), and slot i of the tuple holds
operand i's value. -/
theorem claim_C2_join_pending_ready_results :
    (∀ (σ1 α1 : Type) (σ2 α2 : Type) (g1 : σ1 → σ1 × Poll α1) (g2 : σ2 → σ2 × Poll α2)
      (st st2 : Join σ1 α1 σ2 α2) (out : Poll (α1 × α2)) (tr : List Nat)
      (m1 : MaybeDone σ1 α1) (r1 : Poll Unit) (p1 : Bool) (m2 : MaybeDone σ2 α2) (r2 : Poll Unit) (p2 : Bool),
      st.Fut1.poll g1 = some (m1, r1, p1) →
      st.Fut2.poll g2 = some (m2, r2, p2) →
      Join.poll g1 g2 st = some (st2, out, tr) →
      (out = Poll.Pending ↔ (true && r1.is_ready && r2.is_ready) = false) ∧
        (∀ (v1 : α1) (v2 : α2), out = Poll.Ready (v1, v2) →
          m1 = MaybeDone.Done v1 ∧
          m2 = MaybeDone.Done v2 ∧
          st2 = ⟨MaybeDone.Gone, MaybeDone.Gone⟩)) ∧
    (∀ (σ1 α1 : Type) (σ2 α2 : Type) (σ3 α3 : Type) (g1 : σ1 → σ1 × Poll α1) (g2 : σ2 → σ2 × Poll α2) (g3 : σ3 → σ3 × Poll α3)
      (st st2 : Join3 σ1 α1 σ2 α2 σ3 α3) (out : Poll (α1 × α2 × α3)) (tr : List Nat)
      (m1 : MaybeDone σ1 α1) (r1 : Poll Unit) (p1 : Bool) (m2 : MaybeDone σ2 α2) (r2 : Poll Unit) (p2 : Bool) (m3 : MaybeDone σ3 α3) (r3 : Poll Unit) (p3 : Bool),
      st.Fut1.poll g1 = some (m1, r1, p1) →
      st.Fut2.poll g2 = some (m2, r2, p2) →
      st.Fut3.poll g3 = some (m3, r3, p3) →
      Join3.poll g1 g2 g3 st = some (st2, out, tr) →
      (out = Poll.Pending ↔ (true && r1.is_ready && r2.is_ready && r3.is_ready) = false) ∧
        (∀ (v1 : α1) (v2 : α2) (v3 : α3), out = Poll.Ready (v1, v2, v3) →
          m1 = MaybeDone.Done v1 ∧
          m2 = MaybeDone.Done v2 ∧
          m3 = MaybeDone.Done v3 ∧
          st2 = ⟨MaybeDone.Gone, MaybeDone.Gone, MaybeDone.Gone⟩)) ∧
    (∀ (σ1 α1 : Type) (σ2 α2 : Type) (σ3 α3 : Type) (σ4 α4 : Type) (g1 : σ1 → σ1 × Poll α1) (g2 : σ2 → σ2 × Poll α2) (g3 : σ3 → σ3 × Poll α3) (g4 : σ4 → σ4 × Poll α4)
      (st st2 : Join4 σ1 α1 σ2 α2 σ3 α3 σ4 α4) (out : Poll (α1 × α2 × α3 × α4)) (tr : List Nat)
      (m1 : MaybeDone σ1 α1) (r1 : Poll Unit) (p1 : Bool) (m2 : MaybeDone σ2 α2) (r2 : Poll Unit) (p2 : Bool) (m3 : MaybeDone σ3 α3) (r3 : Poll Unit) (p3 : Bool) (m4 : MaybeDone σ4 α4) (r4 : Poll Unit) (p4 : Bool),
      st.Fut1.poll g1 = some (m1, r1, p1) →
      st.Fut2.poll g2 = some (m2, r2, p2) →
      st.Fut3.poll g3 = some (m3, r3, p3) →
      st.Fut4.poll g4 = some (m4, r4, p4) →
      Join4.poll g1 g2 g3 g4 st = some (st2, out, tr) →
      (out = Poll.Pending ↔ (true && r1.is_ready && r2.is_ready && r3.is_ready && r4.is_ready) = false) ∧
        (∀ (v1 : α1) (v2 : α2) (v3 : α3) (v4 : α4), out = Poll.Ready (v1, v2, v3, v4) →
          m1 = MaybeDone.Done v1 ∧
          m2 = MaybeDone.Done v2 ∧
          m3 = MaybeDone.Done v3 ∧
          m4 = MaybeDone.Done v4 ∧
          st2 = ⟨MaybeDone.Gone, MaybeDone.Gone, MaybeDone.Gone, MaybeDone.Gone⟩)) ∧
    (∀ (σ1 α1 : Type) (σ2 α2 : Type) (σ3 α3 : Type) (σ4 α4 : Type) (σ5 α5 : Type) (g1 : σ1 → σ1 × Poll α1) (g2 : σ2 → σ2 × Poll α2) (g3 : σ3 → σ3 × Poll α3) (g4 : σ4 → σ4 × Poll α4) (g5 : σ5 → σ5 × Poll α5)
      (st st2 : Join5 σ1 α1 σ2 α2 σ3 α3 σ4 α4 σ5 α5) (out : Poll (α1 × α2 × α3 × α4 × α5)) (tr : List Nat)
      (m1 : MaybeDone σ1 α1) (r1 : Poll Unit) (p1 : Bool) (m2 : MaybeDone σ2 α2) (r2 : Poll Unit) (p2 : Bool) (m3 : MaybeDone σ3 α3) (r3 : Poll Unit) (p3 : Bool) (m4 : MaybeDone σ4 α4) (r4 : Poll Unit) (p4 : Bool) (m5 : MaybeDone σ5 α5) (r5 : Poll Unit) (p5 : Bool),
      st.Fut1.poll g1 = some (m1, r1, p1) →
      st.Fut2.poll g2 = some (m2, r2, p2) →
      st.Fut3.poll g3 = some (m3, r3, p3) →
      st.Fut4.poll g4 = some (m4, r4, p4) →
      st.Fut5.poll g5 = some (m5, r5, p5) →
      Join5.poll g1 g2 g3 g4 g5 st = some (st2, out, tr) →
      (out = Poll.Pending ↔ (true && r1.is_ready && r2.is_ready && r3.is_ready && r4.is_ready && r5.is_ready) = false) ∧
        (∀ (v1 : α1) (v2 : α2) (v3 : α3) (v4 : α4) (v5 : α5), out = Poll.Ready (v1, v2, v3, v4, v5) →
          m1 = MaybeDone.Done v1 ∧
          m2 = MaybeDone.Done v2 ∧
          m3 = MaybeDone.Done v3 ∧
          m4 = MaybeDone.Done v4 ∧
          m5 = MaybeDone.Done v5 ∧
          st2 = ⟨MaybeDone.Gone, MaybeDone.Gone, MaybeDone.Gone, MaybeDone.Gone, MaybeDone.Gone⟩)) := by
  refine ⟨?_, ?_, ?_, ?_⟩
  · intro σ1 α1 σ2 α2 g1 g2 st st2 out tr m1 r1 p1 m2 r2 p2 h1 h2 hpoll
    cases hc : (true && r1.is_ready && r2.is_ready) with
    | false =>
      have heq := Join.poll_pending_eq2 g1 g2 st m1 r1 p1 m2 r2 p2 h1 h2 hc
      rw [heq] at hpoll
      simp only [Option.some.injEq, Prod.mk.injEq] at hpoll
      obtain ⟨hst, hout, htr⟩ := hpoll
      subst hst
      subst hout
      subst htr
      refine ⟨by simp, ?_⟩
      intro w1 w2 hcon
      cases hcon
    | true =>
      obtain ⟨v1, v2, hd1, hd2, heq⟩ := Join.poll_ready_eq2 g1 g2 st m1 r1 p1 m2 r2 p2 h1 h2 hc
      rw [heq] at hpoll
      simp only [Option.some.injEq, Prod.mk.injEq] at hpoll
      obtain ⟨hst, hout, htr⟩ := hpoll
      subst hst
      subst hout
      subst htr
      refine ⟨by simp [hc], ?_⟩
      intro w1 w2 hcon
      simp only [Poll.Ready.injEq, Prod.mk.injEq] at hcon
      obtain ⟨e1, e2⟩ := hcon
      subst e1
      subst e2
      exact ⟨hd1, hd2, rfl⟩
  · intro σ1 α1 σ2 α2 σ3 α3 g1 g2 g3 st st2 out tr m1 r1 p1 m2 r2 p2 m3 r3 p3 h1 h2 h3 hpoll
    cases hc : (true && r1.is_ready && r2.is_ready && r3.is_ready) with
    | false =>
      have heq := Join3.poll_pending_eq3 g1 g2 g3 st m1 r1 p1 m2 r2 p2 m3 r3 p3 h1 h2 h3 hc
      rw [heq] at hpoll
      simp only [Option.some.injEq, Prod.mk.injEq] at hpoll
      obtain ⟨hst, hout, htr⟩ := hpoll
      subst hst
      subst hout
      subst htr
      refine ⟨by simp, ?_⟩
      intro w1 w2 w3 hcon
      cases hcon
    | true =>
      obtain ⟨v1, v2, v3, hd1, hd2, hd3, heq⟩ := Join3.poll_ready_eq3 g1 g2 g3 st m1 r1 p1 m2 r2 p2 m3 r3 p3 h1 h2 h3 hc
      rw [heq] at hpoll
      simp only [Option.some.injEq, Prod.mk.injEq] at hpoll
      obtain ⟨hst, hout, htr⟩ := hpoll
      subst hst
      subst hout
      subst htr
      refine ⟨by simp [hc], ?_⟩
      intro w1 w2 w3 hcon
      simp only [Poll.Ready.injEq, Prod.mk.injEq] at hcon
      obtain ⟨e1, e2, e3⟩ := hcon
      subst e1
      subst e2
      subst e3
      exact ⟨hd1, hd2, hd3, rfl⟩
  · intro σ1 α1 σ2 α2 σ3 α3 σ4 α4 g1 g2 g3 g4 st st2 out tr m1 r1 p1 m2 r2 p2 m3 r3 p3 m4 r4 p4 h1 h2 h3 h4 hpoll
    cases hc : (true && r1.is_ready && r2.is_ready && r3.is_ready && r4.is_ready) with
    | false =>
      have heq := Join4.poll_pending_eq4 g1 g2 g3 g4 st m1 r1 p1 m2 r2 p2 m3 r3 p3 m4 r4 p4 h1 h2 h3 h4 hc
      rw [heq] at hpoll
      simp only [Option.some.injEq, Prod.mk.injEq] at hpoll
      obtain ⟨hst, hout, htr⟩ := hpoll
      subst hst
      subst hout
      subst htr
      refine ⟨by simp, ?_⟩
      intro w1 w2 w3 w4 hcon
      cases hcon
    | true =>
      obtain ⟨v1, v2, v3, v4, hd1, hd2, hd3, hd4, heq⟩ := Join4.poll_ready_eq4 g1 g2 g3 g4 st m1 r1 p1 m2 r2 p2 m3 r3 p3 m4 r4 p4 h1 h2 h3 h4 hc
      rw [heq] at hpoll
      simp only [Option.some.injEq, Prod.mk.injEq] at hpoll
      obtain ⟨hst, hout, htr⟩ := hpoll
      subst hst
      subst hout
      subst htr
      refine ⟨by simp [hc], ?_⟩
      intro w1 w2 w3 w4 hcon
      simp only [Poll.Ready.injEq, Prod.mk.injEq] at hcon
      obtain ⟨e1, e2, e3, e4⟩ := hcon
      subst e1
      subst e2
      subst e3
      subst e4
      exact ⟨hd1, hd2, hd3, hd4, rfl⟩
  · intro σ1 α1 σ2 α2 σ3 α3 σ4 α4 σ5 α5 g1 g2 g3 g4 g5 st st2 out tr m1 r1 p1 m2 r2 p2 m3 r3 p3 m4 r4 p4 m5 r5 p5 h1 h2 h3 h4 h5 hpoll
    cases hc : (true && r1.is_ready && r2.is_ready && r3.is_ready && r4.is_ready && r5.is_ready) with
    | false =>
      have heq := Join5.poll_pending_eq5 g1 g2 g3 g4 g5 st m1 r1 p1 m2 r2 p2 m3 r3 p3 m4 r4 p4 m5 r5 p5 h1 h2 h3 h4 h5 hc
      rw [heq] at hpoll
      simp only [Option.some.injEq, Prod.mk.injEq] at hpoll
      obtain ⟨hst, hout, htr⟩ := hpoll
      subst hst
      subst hout
      subst htr
      refine ⟨by simp, ?_⟩
      intro w1 w2 w3 w4 w5 hcon
      cases hcon
    | true =>
      obtain ⟨v1, v2, v3, v4, v5, hd1, hd2, hd3, hd4, hd5, heq⟩ := Join5.poll_ready_eq5 g1 g2 g3 g4 g5 st m1 r1 p1 m2 r2 p2 m3 r3 p3 m4 r4 p4 m5 r5 p5 h1 h2 h3 h4 h5 hc
      rw [heq] at hpoll
      simp only [Option.some.injEq, Prod.mk.injEq] at hpoll
      obtain ⟨hst, hout, htr⟩ := hpoll
      subst hst
      subst hout
      subst htr
      refine ⟨by simp [hc], ?_⟩
      intro w1 w2 w3 w4 w5 hcon
      simp only [Poll.Ready.injEq, Prod.mk.injEq] at hcon
      obtain ⟨e1, e2, e3, e4, e5⟩ := hcon
      subst e1
      subst e2
      subst e3
      subst e4
      subst e5
      exact ⟨hd1, hd2, hd3, hd4, hd5, rfl⟩

/-- Claim C9: on every Join-N poll call that returns `Pending`, no operand
slot's value is taken: slots that are already `Done` retain their stored
values unchanged across `Pending` turns, so the values are still available
on the eventual completing turn. -/
theorem claim_C9_join_pending_preserves_done_values :
    (∀ (σ1 α1 : Type) (σ2 α2 : Type) (g1 : σ1 → σ1 × Poll α1) (g2 : σ2 → σ2 × Poll α2)
      (st st2 : Join σ1 α1 σ2 α2) (tr : List Nat)
      (m1 : MaybeDone σ1 α1) (r1 : Poll Unit) (p1 : Bool) (m2 : MaybeDone σ2 α2) (r2 : Poll Unit) (p2 : Bool) (v1 : α1) (v2 : α2),
      st.Fut1.poll g1 = some (m1, r1, p1) →
      st.Fut2.poll g2 = some (m2, r2, p2) →
      Join.poll g1 g2 st = some (st2, Poll.Pending, tr) →
      (st.Fut1 = MaybeDone.Done v1 → st2.Fut1 = MaybeDone.Done v1) ∧
        (st.Fut2 = MaybeDone.Done v2 → st2.Fut2 = MaybeDone.Done v2)) ∧
    (∀ (σ1 α1 : Type) (σ2 α2 : Type) (σ3 α3 : Type) (g1 : σ1 → σ1 × Poll α1) (g2 : σ2 → σ2 × Poll α2) (g3 : σ3 → σ3 × Poll α3)
      (st st2 : Join3 σ1 α1 σ2 α2 σ3 α3) (tr : List Nat)
      (m1 : MaybeDone σ1 α1) (r1 : Poll Unit) (p1 : Bool) (m2 : MaybeDone σ2 α2) (r2 : Poll Unit) (p2 : Bool) (m3 : MaybeDone σ3 α3) (r3 : Poll Unit) (p3 : Bool) (v1 : α1) (v2 : α2) (v3 : α3),
      st.Fut1.poll g1 = some (m1, r1, p1) →
      st.Fut2.poll g2 = some (m2, r2, p2) →
      st.Fut3.poll g3 = some (m3, r3, p3) →
      Join3.poll g1 g2 g3 st = some (st2, Poll.Pending, tr) →
      (st.Fut1 = MaybeDone.Done v1 → st2.Fut1 = MaybeDone.Done v1) ∧
        (st.Fut2 = MaybeDone.Done v2 → st2.Fut2 = MaybeDone.Done v2) ∧
        (st.Fut3 = MaybeDone.Done v3 → st2.Fut3 = MaybeDone.Done v3)) ∧
    (∀ (σ1 α1 : Type) (σ2 α2 : Type) (σ3 α3 : Type) (σ4 α4 : Type) (g1 : σ1 → σ1 × Poll α1) (g2 : σ2 → σ2 × Poll α2) (g3 : σ3 → σ3 × Poll α3) (g4 : σ4 → σ4 × Poll α4)
      (st st2 : Join4 σ1 α1 σ2 α2 σ3 α3 σ4 α4) (tr : List Nat)
      (m1 : MaybeDone σ1 α1) (r1 : Poll Unit) (p1 : Bool) (m2 : MaybeDone σ2 α2) (r2 : Poll Unit) (p2 : Bool) (m3 : MaybeDone σ3 α3) (r3 : Poll Unit) (p3 : Bool) (m4 : MaybeDone σ4 α4) (r4 : Poll Unit) (p4 : Bool) (v1 : α1) (v2 : α2) (v3 : α3) (v4 : α4),
      st.Fut1.poll g1 = some (m1, r1, p1) →
      st.Fut2.poll g2 = some (m2, r2, p2) →
      st.Fut3.poll g3 = some (m3, r3, p3) →
      st.Fut4.poll g4 = some (m4, r4, p4) →
      Join4.poll g1 g2 g3 g4 st = some (st2, Poll.Pending, tr) →
      (st.Fut1 = MaybeDone.Done v1 → st2.Fut1 = MaybeDone.Done v1) ∧
        (st.Fut2 = MaybeDone.Done v2 → st2.Fut2 = MaybeDone.Done v2) ∧
        (st.Fut3 = MaybeDone.Done v3 → st2.Fut3 = MaybeDone.Done v3) ∧
        (st.Fut4 = MaybeDone.Done v4 → st2.Fut4 = MaybeDone.Done v4)) ∧
    (∀ (σ1 α1 : Type) (σ2 α2 : Type) (σ3 α3 : Type) (σ4 α4 : Type) (σ5 α5 : Type) (g1 : σ1 → σ1 × Poll α1) (g2 : σ2 → σ2 × Poll α2) (g3 : σ3 → σ3 × Poll α3) (g4 : σ4 → σ4 × Poll α4) (g5 : σ5 → σ5 × Poll α5)
      (st st2 : Join5 σ1 α1 σ2 α2 σ3 α3 σ4 α4 σ5 α5) (tr : List Nat)
      (m1 : MaybeDone σ1 α1) (r1 : Poll Unit) (p1 : Bool) (m2 : MaybeDone σ2 α2) (r2 : Poll Unit) (p2 : Bool) (m3 : MaybeDone σ3 α3) (r3 : Poll Unit) (p3 : Bool) (m4 : MaybeDone σ4 α4) (r4 : Poll Unit) (p4 : Bool) (m5 : MaybeDone σ5 α5) (r5 : Poll Unit) (p5 : Bool) (v1 : α1) (v2 : α2) (v3 : α3) (v4 : α4) (v5 : α5),
      st.Fut1.poll g1 = some (m1, r1, p1) →
      st.Fut2.poll g2 = some (m2, r2, p2) →
      st.Fut3.poll g3 = some (m3, r3, p3) →
      st.Fut4.poll g4 = some (m4, r4, p4) →
      st.Fut5.poll g5 = some (m5, r5, p5) →
      Join5.poll g1 g2 g3 g4 g5 st = some (st2, Poll.Pending, tr) →
      (st.Fut1 = MaybeDone.Done v1 → st2.Fut1 = MaybeDone.Done v1) ∧
        (st.Fut2 = MaybeDone.Done v2 → st2.Fut2 = MaybeDone.Done v2) ∧
        (st.Fut3 = MaybeDone.Done v3 → st2.Fut3 = MaybeDone.Done v3) ∧
        (st.Fut4 = MaybeDone.Done v4 → st2.Fut4 = MaybeDone.Done v4) ∧
        (st.Fut5 = MaybeDone.Done v5 → st2.Fut5 = MaybeDone.Done v5)) := by
  refine ⟨?_, ?_, ?_, ?_⟩
  · intro σ1 α1 σ2 α2 g1 g2 st st2 tr m1 r1 p1 m2 r2 p2 v1 v2 h1 h2 hpoll
    cases hc : (true && r1.is_ready && r2.is_ready) with
    | true =>
      obtain ⟨u1, u2, hd1, hd2, heq⟩ := Join.poll_ready_eq2 g1 g2 st m1 r1 p1 m2 r2 p2 h1 h2 hc
      rw [heq] at hpoll
      simp only [Option.some.injEq, Prod.mk.injEq] at hpoll
      exact absurd hpoll.2.1 (by simp)
    | false =>
      have heq := Join.poll_pending_eq2 g1 g2 st m1 r1 p1 m2 r2 p2 h1 h2 hc
      rw [heq] at hpoll
      simp only [Option.some.injEq, Prod.mk.injEq] at hpoll
      obtain ⟨hst, hout, htr⟩ := hpoll
      subst hst
      exact ⟨fun hd => by
        rw [hd, MaybeDone.poll_of_done] at h1
        simp only [Option.some.injEq, Prod.mk.injEq] at h1
        exact h1.1.symm, fun hd => by
        rw [hd, MaybeDone.poll_of_done] at h2
        simp only [Option.some.injEq, Prod.mk.injEq] at h2
        exact h2.1.symm⟩
  · intro σ1 α1 σ2 α2 σ3 α3 g1 g2 g3 st st2 tr m1 r1 p1 m2 r2 p2 m3 r3 p3 v1 v2 v3 h1 h2 h3 hpoll
    cases hc : (true && r1.is_ready && r2.is_ready && r3.is_ready) with
    | true =>
      obtain ⟨u1, u2, u3, hd1, hd2, hd3, heq⟩ := Join3.poll_ready_eq3 g1 g2 g3 st m1 r1 p1 m2 r2 p2 m3 r3 p3 h1 h2 h3 hc
      rw [heq] at hpoll
      simp only [Option.some.injEq, Prod.mk.injEq] at hpoll
      exact absurd hpoll.2.1 (by simp)
    | false =>
      have heq := Join3.poll_pending_eq3 g1 g2 g3 st m1 r1 p1 m2 r2 p2 m3 r3 p3 h1 h2 h3 hc
      rw [heq] at hpoll
      simp only [Option.some.injEq, Prod.mk.injEq] at hpoll
      obtain ⟨hst, hout, htr⟩ := hpoll
      subst hst
      exact ⟨fun hd => by
        rw [hd, MaybeDone.poll_of_done] at h1
        simp only [Option.some.injEq, Prod.mk.injEq] at h1
        exact h1.1.symm, fun hd => by
        rw [hd, MaybeDone.poll_of_done] at h2
        simp only [Option.some.injEq, Prod.mk.injEq] at h2
        exact h2.1.symm, fun hd => by
        rw [hd, MaybeDone.poll_of_done] at h3
        simp only [Option.some.injEq, Prod.mk.injEq] at h3
        exact h3.1.symm⟩
  · intro σ1 α1 σ2 α2 σ3 α3 σ4 α4 g1 g2 g3 g4 st st2 tr m1 r1 p1 m2 r2 p2 m3 r3 p3 m4 r4 p4 v1 v2 v3 v4 h1 h2 h3 h4 hpoll
    cases hc : (true && r1.is_ready && r2.is_ready && r3.is_ready && r4.is_ready) with
    | true =>
      obtain ⟨u1, u2, u3, u4, hd1, hd2, hd3, hd4, heq⟩ := Join4.poll_ready_eq4 g1 g2 g3 g4 st m1 r1 p1 m2 r2 p2 m3 r3 p3 m4 r4 p4 h1 h2 h3 h4 hc
      rw [heq] at hpoll
      simp only [Option.some.injEq, Prod.mk.injEq] at hpoll
      exact absurd hpoll.2.1 (by simp)
    | false =>
      have heq := Join4.poll_pending_eq4 g1 g2 g3 g4 st m1 r1 p1 m2 r2 p2 m3 r3 p3 m4 r4 p4 h1 h2 h3 h4 hc
      rw [heq] at hpoll
      simp only [Option.some.injEq, Prod.mk.injEq] at hpoll
      obtain ⟨hst, hout, htr⟩ := hpoll
      subst hst
      exact ⟨fun hd => by
        rw [hd, MaybeDone.poll_of_done] at h1
        simp only [Option.some.injEq, Prod.mk.injEq] at h1
        exact h1.1.symm, fun hd => by
        rw [hd, MaybeDone.poll_of_done] at h2
        simp only [Option.some.injEq, Prod.mk.injEq] at h2
        exact h2.1.symm, fun hd => by
        rw [hd, MaybeDone.poll_of_done] at h3
        simp only [Option.some.injEq, Prod.mk.injEq] at h3
        exact h3.1.symm, fun hd => by
        rw [hd, MaybeDone.poll_of_done] at h4
        simp only [Option.some.injEq, Prod.mk.injEq] at h4
        exact h4.1.symm⟩
  · intro σ1 α1 σ2 α2 σ3 α3 σ4 α4 σ5 α5 g1 g2 g3 g4 g5 st st2 tr m1 r1 p1 m2 r2 p2 m3 r3 p3 m4 r4 p4 m5 r5 p5 v1 v2 v3 v4 v5 h1 h2 h3 h4 h5 hpoll
    cases hc : (true && r1.is_ready && r2.is_ready && r3.is_ready && r4.is_ready && r5.is_ready) with
    | true =>
      obtain ⟨u1, u2, u3, u4, u5, hd1, hd2, hd3, hd4, hd5, heq⟩ := Join5.poll_ready_eq5 g1 g2 g3 g4 g5 st m1 r1 p1 m2 r2 p2 m3 r3 p3 m4 r4 p4 m5 r5 p5 h1 h2 h3 h4 h5 hc
      rw [heq] at hpoll
      simp only [Option.some.injEq, Prod.mk.injEq] at hpoll
      exact absurd hpoll.2.1 (by simp)
    | false =>
      have heq := Join5.poll_pending_eq5 g1 g2 g3 g4 g5 st m1 r1 p1 m2 r2 p2 m3 r3 p3 m4 r4 p4 m5 r5 p5 h1 h2 h3 h4 h5 hc
      rw [heq] at hpoll
      simp only [Option.some.injEq, Prod.mk.injEq] at hpoll
      obtain ⟨hst, hout, htr⟩ := hpoll
      subst hst
      exact ⟨fun hd => by
        rw [hd, MaybeDone.poll_of_done] at h1
        simp only [Option.some.injEq, Prod.mk.injEq] at h1
        exact h1.1.symm, fun hd => by
        rw [hd, MaybeDone.poll_of_done] at h2
        simp only [Option.some.injEq, Prod.mk.injEq] at h2
        exact h2.1.symm, fun hd => by
        rw [hd, MaybeDone.poll_of_done] at h3
        simp only [Option.some.injEq, Prod.mk.injEq] at h3
        exact h3.1.symm, fun hd => by
        rw [hd, MaybeDone.poll_of_done] at h4
        simp only [Option.some.injEq, Prod.mk.injEq] at h4
        exact h4.1.symm, fun hd => by
        rw [hd, MaybeDone.poll_of_done] at h5
        simp only [Option.some.injEq, Prod.mk.injEq] at h5
        exact h5.1.symm⟩

/-- Concrete instantiation of claim C1 at each arity: operand 1 still
pending, the rest already done, so the advance trace is `[1]`. -/
theorem claim_C1_witness :
    ([1] : List Nat).Sublist [1, 2] ∧ ([1] : List Nat).Sublist [1, 2, 3] ∧
      ([1] : List Nat).Sublist [1, 2, 3, 4] ∧
      ([1] : List Nat).Sublist [1, 2, 3, 4, 5] := by
  refine ⟨?_, ?_, ?_, ?_⟩
  · exact (claim_C1_join_advances_all_in_order.1 Unit Nat Unit Nat
      opPending (opReady 9)
      ⟨MaybeDone.Future (), MaybeDone.Done 5⟩
      ⟨MaybeDone.Future (), MaybeDone.Done 5⟩ Poll.Pending [1]
      (MaybeDone.Future ()) Poll.Pending true
      (MaybeDone.Done 5) (Poll.Ready ()) false rfl rfl rfl).1
  · exact (claim_C1_join_advances_all_in_order.2.1 Unit Nat Unit Nat Unit Nat
      opPending (opReady 9) (opReady 9)
      ⟨MaybeDone.Future (), MaybeDone.Done 5, MaybeDone.Done 6⟩
      ⟨MaybeDone.Future (), MaybeDone.Done 5, MaybeDone.Done 6⟩ Poll.Pending [1]
      (MaybeDone.Future ()) Poll.Pending true
      (MaybeDone.Done 5) (Poll.Ready ()) false
      (MaybeDone.Done 6) (Poll.Ready ()) false rfl rfl rfl rfl).1
  · exact (claim_C1_join_advances_all_in_order.2.2.1 Unit Nat Unit Nat Unit Nat
      Unit Nat opPending (opReady 9) (opReady 9) (opReady 9)
      ⟨MaybeDone.Future (), MaybeDone.Done 5, MaybeDone.Done 6, MaybeDone.Done 7⟩
      ⟨MaybeDone.Future (), MaybeDone.Done 5, MaybeDone.Done 6, MaybeDone.Done 7⟩
      Poll.Pending [1]
      (MaybeDone.Future ()) Poll.Pending true
      (MaybeDone.Done 5) (Poll.Ready ()) false
      (MaybeDone.Done 6) (Poll.Ready ()) false
      (MaybeDone.Done 7) (Poll.Ready ()) false rfl rfl rfl rfl rfl).1
  · exact (claim_C1_join_advances_all_in_order.2.2.2 Unit Nat Unit Nat Unit Nat
      Unit Nat Unit Nat opPending (opReady 9) (opReady 9) (opReady 9) (opReady 9)
      ⟨MaybeDone.Future (), MaybeDone.Done 5, MaybeDone.Done 6, MaybeDone.Done 7,
        MaybeDone.Done 8⟩
      ⟨MaybeDone.Future (), MaybeDone.Done 5, MaybeDone.Done 6, MaybeDone.Done 7,
        MaybeDone.Done 8⟩
      Poll.Pending [1]
      (MaybeDone.Future ()) Poll.Pending true
      (MaybeDone.Done 5) (Poll.Ready ()) false
      (MaybeDone.Done 6) (Poll.Ready ()) false
      (MaybeDone.Done 7) (Poll.Ready ()) false
      (MaybeDone.Done 8) (Poll.Ready ()) false rfl rfl rfl rfl rfl rfl).1

/-- Concrete instantiation of claim C2 at each arity: all operands complete
on this turn, every slot ends `Gone` and the tuple holds the per-slot
values. -/
theorem claim_C2_witness :
    (MaybeDone.Done 7 = (MaybeDone.Done 7 : MaybeDone Unit Nat) ∧
        MaybeDone.Done 5 = (MaybeDone.Done 5 : MaybeDone Unit Nat) ∧
        (⟨MaybeDone.Gone, MaybeDone.Gone⟩ : Join Unit Nat Unit Nat) =
          ⟨MaybeDone.Gone, MaybeDone.Gone⟩) ∧
      ((⟨MaybeDone.Gone, MaybeDone.Gone, MaybeDone.Gone⟩ :
          Join3 Unit Nat Unit Nat Unit Nat) =
        ⟨MaybeDone.Gone, MaybeDone.Gone, MaybeDone.Gone⟩) ∧
      ((⟨MaybeDone.Gone, MaybeDone.Gone, MaybeDone.Gone, MaybeDone.Gone⟩ :
          Join4 Unit Nat Unit Nat Unit Nat Unit Nat) =
        ⟨MaybeDone.Gone, MaybeDone.Gone, MaybeDone.Gone, MaybeDone.Gone⟩) ∧
      ((⟨MaybeDone.Gone, MaybeDone.Gone, MaybeDone.Gone, MaybeDone.Gone,
          MaybeDone.Gone⟩ : Join5 Unit Nat Unit Nat Unit Nat Unit Nat Unit Nat) =
        ⟨MaybeDone.Gone, MaybeDone.Gone, MaybeDone.Gone, MaybeDone.Gone,
          MaybeDone.Gone⟩) := by
  refine ⟨?_, ?_, ?_, ?_⟩
  · exact (claim_C2_join_pending_ready_results.1 Unit Nat Unit Nat
      (opReady 7) (opReady 5)
      ⟨MaybeDone.Future (), MaybeDone.Future ()⟩
      ⟨MaybeDone.Gone, MaybeDone.Gone⟩ (Poll.Ready (7, 5)) [1, 2]
      (MaybeDone.Done 7) (Poll.Ready ()) true
      (MaybeDone.Done 5) (Poll.Ready ()) true rfl rfl rfl).2 7 5 rfl
  · exact ((claim_C2_join_pending_ready_results.2.1 Unit Nat Unit Nat Unit Nat
      (opReady 7) (opReady 5) (opReady 3)
      ⟨MaybeDone.Future (), MaybeDone.Future (), MaybeDone.Future ()⟩
      ⟨MaybeDone.Gone, MaybeDone.Gone, MaybeDone.Gone⟩ (Poll.Ready (7, 5, 3))
      [1, 2, 3]
      (MaybeDone.Done 7) (Poll.Ready ()) true
      (MaybeDone.Done 5) (Poll.Ready ()) true
      (MaybeDone.Done 3) (Poll.Ready ()) true
      rfl rfl rfl rfl).2 7 5 3 rfl).2.2.2
  · exact ((claim_C2_join_pending_ready_results.2.2.1 Unit Nat Unit Nat Unit Nat
      Unit Nat (opReady 7) (opReady 5) (opReady 3) (opReady 2)
      ⟨MaybeDone.Future (), MaybeDone.Future (), MaybeDone.Future (),
        MaybeDone.Future ()⟩
      ⟨MaybeDone.Gone, MaybeDone.Gone, MaybeDone.Gone, MaybeDone.Gone⟩
      (Poll.Ready (7, 5, 3, 2)) [1, 2, 3, 4]
      (MaybeDone.Done 7) (Poll.Ready ()) true
      (MaybeDone.Done 5) (Poll.Ready ()) true
      (MaybeDone.Done 3) (Poll.Ready ()) true
      (MaybeDone.Done 2) (Poll.Ready ()) true
      rfl rfl rfl rfl rfl).2 7 5 3 2 rfl).2.2.2.2
  · exact ((claim_C2_join_pending_ready_results.2.2.2 Unit Nat Unit Nat Unit Nat
      Unit Nat Unit Nat (opReady 7) (opReady 5) (opReady 3) (opReady 2)
      (opReady 1)
      ⟨MaybeDone.Future (), MaybeDone.Future (), MaybeDone.Future (),
        MaybeDone.Future (), MaybeDone.Future ()⟩
      ⟨MaybeDone.Gone, MaybeDone.Gone, MaybeDone.Gone, MaybeDone.Gone,
        MaybeDone.Gone⟩
      (Poll.Ready (7, 5, 3, 2, 1)) [1, 2, 3, 4, 5]
      (MaybeDone.Done 7) (Poll.Ready ()) true
      (MaybeDone.Done 5) (Poll.Ready ()) true
      (MaybeDone.Done 3) (Poll.Ready ()) true
      (MaybeDone.Done 2) (Poll.Ready ()) true
      (MaybeDone.Done 1) (Poll.Ready ()) true
      rfl rfl rfl rfl rfl rfl).2 7 5 3 2 1 rfl).2.2.2.2.2

/-- Concrete instantiation of claim C9 at each arity: a pending turn leaves
the already-done last slot's value in place. -/
theorem claim_C9_witness :
    (⟨MaybeDone.Future (), MaybeDone.Done 5⟩ :
        Join Unit Nat Unit Nat).Fut2 = MaybeDone.Done 5 ∧
      (⟨MaybeDone.Future (), MaybeDone.Done 5, MaybeDone.Done 6⟩ :
        Join3 Unit Nat Unit Nat Unit Nat).Fut3 = MaybeDone.Done 6 ∧
      (⟨MaybeDone.Future (), MaybeDone.Done 5, MaybeDone.Done 6,
          MaybeDone.Done 7⟩ :
        Join4 Unit Nat Unit Nat Unit Nat Unit Nat).Fut4 = MaybeDone.Done 7 ∧
      (⟨MaybeDone.Future (), MaybeDone.Done 5, MaybeDone.Done 6,
          MaybeDone.Done 7, MaybeDone.Done 8⟩ :
        Join5 Unit Nat Unit Nat Unit Nat Unit Nat Unit Nat).Fut5 =
          MaybeDone.Done 8 := by
  refine ⟨?_, ?_, ?_, ?_⟩
  · exact (claim_C9_join_pending_preserves_done_values.1 Unit Nat Unit Nat
      opPending (opReady 9)
      ⟨MaybeDone.Future (), MaybeDone.Done 5⟩
      ⟨MaybeDone.Future (), MaybeDone.Done 5⟩ [1]
      (MaybeDone.Future ()) Poll.Pending true
      (MaybeDone.Done 5) (Poll.Ready ()) false
      0 5 rfl rfl rfl).2 rfl
  · exact (claim_C9_join_pending_preserves_done_values.2.1 Unit Nat Unit Nat
      Unit Nat opPending (opReady 9) (opReady 9)
      ⟨MaybeDone.Future (), MaybeDone.Done 5, MaybeDone.Done 6⟩
      ⟨MaybeDone.Future (), MaybeDone.Done 5, MaybeDone.Done 6⟩ [1]
      (MaybeDone.Future ()) Poll.Pending true
      (MaybeDone.Done 5) (Poll.Ready ()) false
      (MaybeDone.Done 6) (Poll.Ready ()) false
      0 5 6 rfl rfl rfl rfl).2.2 rfl
  · exact (claim_C9_join_pending_preserves_done_values.2.2.1 Unit Nat Unit Nat
      Unit Nat Unit Nat opPending (opReady 9) (opReady 9) (opReady 9)
      ⟨MaybeDone.Future (), MaybeDone.Done 5, MaybeDone.Done 6, MaybeDone.Done 7⟩
      ⟨MaybeDone.Future (), MaybeDone.Done 5, MaybeDone.Done 6, MaybeDone.Done 7⟩
      [1]
      (MaybeDone.Future ()) Poll.Pending true
      (MaybeDone.Done 5) (Poll.Ready ()) false
      (MaybeDone.Done 6) (Poll.Ready ()) false
      (MaybeDone.Done 7) (Poll.Ready ()) false
      0 5 6 7 rfl rfl rfl rfl rfl).2.2.2 rfl
  · exact (claim_C9_join_pending_preserves_done_values.2.2.2 Unit Nat Unit Nat
      Unit Nat Unit Nat Unit Nat opPending (opReady 9) (opReady 9) (opReady 9)
      (opReady 9)
      ⟨MaybeDone.Future (), MaybeDone.Done 5, MaybeDone.Done 6, MaybeDone.Done 7,
        MaybeDone.Done 8⟩
      ⟨MaybeDone.Future (), MaybeDone.Done 5, MaybeDone.Done 6, MaybeDone.Done 7,
        MaybeDone.Done 8⟩ [1]
      (MaybeDone.Future ()) Poll.Pending true
      (MaybeDone.Done 5) (Poll.Ready ()) false
      (MaybeDone.Done 6) (Poll.Ready ()) false
      (MaybeDone.Done 7) (Poll.Ready ()) false
      (MaybeDone.Done 8) (Poll.Ready ()) false
      0 5 6 7 8 rfl rfl rfl rfl rfl rfl).2.2.2.2 rfl

/-! ## Chain, from `io/chain.rs`

A byte source (`AsyncRead`) is a state machine whose `poll_read` takes the
destination buffer and returns `Pending` or `Ready(Ok n)` / `Ready(Err e)`.
`Chain` only inspects the destination buffer's emptiness and threads it
through, so the buffer is represented by its length (`poll_read`) or the
list of its segment lengths (`poll_read_vectored`).  A buffered source
(`AsyncBufRead`) returns its internal buffer on `poll_fill_buf`, modelled
as the list of buffered bytes, and acknowledges consumed bytes with
`consume`.  The I/O error type `ε` is abstract. -/

/-- `Chain<T, U>`: two sources and the `done_first` cursor. -/
structure Chain (σ1 σ2 : Type) where
  first : σ1
  second : σ2
  done_first : Bool
deriving Repr, DecidableEq

/-- `Chain::new`: `done_first` starts `false`. -/
def Chain.new {σ1 σ2 : Type} (first : σ1) (second : σ2) : Chain σ1 σ2 :=
  ⟨first, second, false⟩

/-- `Chain::into_inner`. -/
def Chain.into_inner {σ1 σ2 : Type} (c : Chain σ1 σ2) : σ1 × σ2 :=
  (c.first, c.second)

/-- The shared tail `self.second().poll_read(cx, buf)` of `poll_read`:
delegation to the second source. -/
def Chain.read_second {σ1 σ2 ε : Type} (r2 : σ2 → Nat → σ2 × Poll (Except ε Nat))
    (c : Chain σ1 σ2) (buf : Nat) : Chain σ1 σ2 × Poll (Except ε Nat) :=
  let res := r2 c.second buf
  ({ c with second := res.1 }, res.2)

/-- `<Chain as AsyncRead>::poll_read`.  `buf` is the destination buffer's
length; `ready!(... ?)` propagates `Pending` and errors from the first
source; a completed read of `0` into a non-empty buffer
(`0 if !buf.is_empty()`) sets `done_first` and falls through to the second
source in the same call. -/
def Chain.poll_read {σ1 σ2 ε : Type}
    (r1 : σ1 → Nat → σ1 × Poll (Except ε Nat))
    (r2 : σ2 → Nat → σ2 × Poll (Except ε Nat))
    (c : Chain σ1 σ2) (buf : Nat) : Chain σ1 σ2 × Poll (Except ε Nat) :=
  if !c.done_first then
    match r1 c.first buf with
    | (s1, Poll.Pending) => ({ c with first := s1 }, Poll.Pending)
    | (s1, Poll.Ready (Except.error e)) =>
      ({ c with first := s1 }, Poll.Ready (Except.error e))
    | (s1, Poll.Ready (Except.ok n)) =>
      if n = 0 ∧ buf ≠ 0 then
        Chain.read_second r2 { c with first := s1, done_first := true } buf
      else
        ({ c with first := s1 }, Poll.Ready (Except.ok n))
  else
    Chain.read_second r2 c buf

/-- The shared tail `self.second().poll_read_vectored(cx, bufs)`. -/
def Chain.read_second_vectored {σ1 σ2 ε : Type}
    (r2 : σ2 → List Nat → σ2 × Poll (Except ε Nat))
    (c : Chain σ1 σ2) (bufs : List Nat) : Chain σ1 σ2 × Poll (Except ε Nat) :=
  let res := r2 c.second bufs
  ({ c with second := res.1 }, res.2)

/-- `<Chain as AsyncRead>::poll_read_vectored`.  `bufs` is the list of
destination segment lengths; the flip condition is
`n == 0 && bufs.iter().any(|b| !b.is_empty())`. -/
def Chain.poll_read_vectored {σ1 σ2 ε : Type}
    (r1 : σ1 → List Nat → σ1 × Poll (Except ε Nat))
    (r2 : σ2 → List Nat → σ2 × Poll (Except ε Nat))
    (c : Chain σ1 σ2) (bufs : List Nat) : Chain σ1 σ2 × Poll (Except ε Nat) :=
  if !c.done_first then
    match r1 c.first bufs with
    | (s1, Poll.Pending) => ({ c with first := s1 }, Poll.Pending)
    | (s1, Poll.Ready (Except.error e)) =>
      ({ c with first := s1 }, Poll.Ready (Except.error e))
    | (s1, Poll.Ready (Except.ok n)) =>
      if n = 0 ∧ bufs.any (fun b => b ≠ 0) then
        Chain.read_second_vectored r2 { c with first := s1, done_first := true }
          bufs
      else
        ({ c with first := s1 }, Poll.Ready (Except.ok n))
  else
    Chain.read_second_vectored r2 c bufs

/-- The shared tail `second.poll_fill_buf(cx)`. -/
def Chain.fill_second {σ1 σ2 ε : Type}
    (f2 : σ2 → σ2 × Poll (Except ε (List Nat)))
    (c : Chain σ1 σ2) : Chain σ1 σ2 × Poll (Except ε (List Nat)) :=
  let res := f2 c.second
  ({ c with second := res.1 }, res.2)

/-- `<Chain as AsyncBufRead>::poll_fill_buf`.  The first source's internal
buffer is returned as is while non-empty; an empty buffer flips
`done_first` and retries against the second source within the same call. -/
def Chain.poll_fill_buf {σ1 σ2 ε : Type}
    (f1 : σ1 → σ1 × Poll (Except ε (List Nat)))
    (f2 : σ2 → σ2 × Poll (Except ε (List Nat)))
    (c : Chain σ1 σ2) : Chain σ1 σ2 × Poll (Except ε (List Nat)) :=
  if !c.done_first then
    match f1 c.first with
    | (s1, Poll.Pending) => ({ c with first := s1 }, Poll.Pending)
    | (s1, Poll.Ready (Except.error e)) =>
      ({ c with first := s1 }, Poll.Ready (Except.error e))
    | (s1, Poll.Ready (Except.ok buf)) =>
      if buf.isEmpty then
        Chain.fill_second f2 { c with first := s1, done_first := true }
      else
        ({ c with first := s1 }, Poll.Ready (Except.ok buf))
  else
    Chain.fill_second f2 c

/-- `<Chain as AsyncBufRead>::consume`: forwards the whole acknowledgement
to the currently active source. -/
def Chain.consume {σ1 σ2 : Type} (c1 : σ1 → Nat → σ1) (c2 : σ2 → Nat → σ2)
    (c : Chain σ1 σ2) (amt : Nat) : Chain σ1 σ2 :=
  if !c.done_first then
    { c with first := c1 c.first amt }
  else
    { c with second := c2 c.second amt }

/-- Claim C3: with `done_first` false and a non-empty destination buffer, a
completed zero-byte read from the first source flips `done_first` and
delegates to the second source within the same call (the result is exactly
the delegated call on the flipped state, with no intervening `Pending`);
every other completed outcome of the first source is returned unchanged;
and once `done_first` is true every `poll_read` delegates directly to the
second source. -/
theorem claim_C3_chain_poll_read_switch :
    (∀ (σ1 σ2 ε : Type) (r1 : σ1 → Nat → σ1 × Poll (Except ε Nat))
      (r2 : σ2 → Nat → σ2 × Poll (Except ε Nat)) (c : Chain σ1 σ2)
      (buf : Nat) (s1 : σ1),
      c.done_first = false → buf ≠ 0 →
      r1 c.first buf = (s1, Poll.Ready (Except.ok 0)) →
      Chain.poll_read r1 r2 c buf =
          Chain.read_second r2 ⟨s1, c.second, true⟩ buf ∧
        (Chain.poll_read r1 r2 c buf).1.done_first = true) ∧
    (∀ (σ1 σ2 ε : Type) (r1 : σ1 → Nat → σ1 × Poll (Except ε Nat))
      (r2 : σ2 → Nat → σ2 × Poll (Except ε Nat)) (c : Chain σ1 σ2)
      (buf n : Nat) (s1 : σ1),
      c.done_first = false →
      r1 c.first buf = (s1, Poll.Ready (Except.ok n)) →
      ¬(n = 0 ∧ buf ≠ 0) →
      Chain.poll_read r1 r2 c buf =
        ({ c with first := s1 }, Poll.Ready (Except.ok n))) ∧
    (∀ (σ1 σ2 ε : Type) (r1 : σ1 → Nat → σ1 × Poll (Except ε Nat))
      (r2 : σ2 → Nat → σ2 × Poll (Except ε Nat)) (c : Chain σ1 σ2)
      (buf : Nat) (s1 : σ1) (e : ε),
      c.done_first = false →
      r1 c.first buf = (s1, Poll.Ready (Except.error e)) →
      Chain.poll_read r1 r2 c buf =
        ({ c with first := s1 }, Poll.Ready (Except.error e))) ∧
    (∀ (σ1 σ2 ε : Type) (r1 : σ1 → Nat → σ1 × Poll (Except ε Nat))
      (r2 : σ2 → Nat → σ2 × Poll (Except ε Nat)) (c : Chain σ1 σ2)
      (buf : Nat),
      c.done_first = true →
      Chain.poll_read r1 r2 c buf = Chain.read_second r2 c buf) := by
  refine ⟨?_, ?_, ?_, ?_⟩
  · intro σ1 σ2 ε r1 r2 c buf s1 hdf hbuf hr
    constructor
    · simp [Chain.poll_read, hdf, hr, hbuf]
    · simp [Chain.poll_read, Chain.read_second, hdf, hr, hbuf]
  · intro σ1 σ2 ε r1 r2 c buf n s1 hdf hr hno
    simp [Chain.poll_read, hdf, hr, hno]
  · intro σ1 σ2 ε r1 r2 c buf s1 e hdf hr
    simp [Chain.poll_read, hdf, hr]
  · intro σ1 σ2 ε r1 r2 c buf hdf
    simp [Chain.poll_read, hdf]

/-- Claim C7: with `done_first` false, a completed zero-byte read into a
zero-length destination buffer is returned as an ordinary zero-byte read
from the first source: `done_first` stays false and the second source is
not consulted. -/
theorem claim_C7_chain_empty_buffer_no_flip :
    ∀ (σ1 σ2 ε : Type) (r1 : σ1 → Nat → σ1 × Poll (Except ε Nat))
      (r2 : σ2 → Nat → σ2 × Poll (Except ε Nat)) (c : Chain σ1 σ2) (s1 : σ1),
      c.done_first = false →
      r1 c.first 0 = (s1, Poll.Ready (Except.ok 0)) →
      Chain.poll_read r1 r2 c 0 =
          ({ c with first := s1 }, Poll.Ready (Except.ok 0)) ∧
        (Chain.poll_read r1 r2 c 0).1.done_first = false ∧
        (Chain.poll_read r1 r2 c 0).1.second = c.second := by
  intro σ1 σ2 ε r1 r2 c s1 hdf hr
  refine ⟨?_, ?_, ?_⟩ <;> simp [Chain.poll_read, hdf, hr]

/-- Claim C10: with `done_first` false, an I/O error completed by the
first source in `poll_read` or `poll_read_vectored` is returned to the
caller, `done_first` stays false, and the second source is not polled in
that call (the switch decision is made only on successful zero-byte
reads). -/
theorem claim_C10_chain_error_no_switch :
    (∀ (σ1 σ2 ε : Type) (r1 : σ1 → Nat → σ1 × Poll (Except ε Nat))
      (r2 : σ2 → Nat → σ2 × Poll (Except ε Nat)) (c : Chain σ1 σ2)
      (buf : Nat) (s1 : σ1) (e : ε),
      c.done_first = false →
      r1 c.first buf = (s1, Poll.Ready (Except.error e)) →
      Chain.poll_read r1 r2 c buf =
          ({ c with first := s1 }, Poll.Ready (Except.error e)) ∧
        (Chain.poll_read r1 r2 c buf).1.done_first = false ∧
        (Chain.poll_read r1 r2 c buf).1.second = c.second) ∧
    (∀ (σ1 σ2 ε : Type) (r1 : σ1 → List Nat → σ1 × Poll (Except ε Nat))
      (r2 : σ2 → List Nat → σ2 × Poll (Except ε Nat)) (c : Chain σ1 σ2)
      (bufs : List Nat) (s1 : σ1) (e : ε),
      c.done_first = false →
      r1 c.first bufs = (s1, Poll.Ready (Except.error e)) →
      Chain.poll_read_vectored r1 r2 c bufs =
          ({ c with first := s1 }, Poll.Ready (Except.error e)) ∧
        (Chain.poll_read_vectored r1 r2 c bufs).1.done_first = false ∧
        (Chain.poll_read_vectored r1 r2 c bufs).1.second = c.second) := by
  constructor
  · intro σ1 σ2 ε r1 r2 c buf s1 e hdf hr
    refine ⟨?_, ?_, ?_⟩ <;> simp [Chain.poll_read, hdf, hr]
  · intro σ1 σ2 ε r1 r2 c bufs s1 e hdf hr
    refine ⟨?_, ?_, ?_⟩ <;> simp [Chain.poll_read_vectored, hdf, hr]

/-- Claim C5: `poll_read_vectored` applies the `poll_read` switch policy
with the exhaustion condition evaluated across the whole vector: a
completed zero-byte read flips `done_first` and falls through to the
second source in the same call exactly when at least one destination
segment is non-empty; otherwise the zero-byte read is returned with no
flip. -/
theorem claim_C5_chain_vectored_switch :
    ∀ (σ1 σ2 ε : Type) (r1 : σ1 → List Nat → σ1 × Poll (Except ε Nat))
      (r2 : σ2 → List Nat → σ2 × Poll (Except ε Nat)) (c : Chain σ1 σ2)
      (bufs : List Nat) (s1 : σ1),
      c.done_first = false →
      r1 c.first bufs = (s1, Poll.Ready (Except.ok 0)) →
      (bufs.any (fun b => b ≠ 0) = true →
        Chain.poll_read_vectored r1 r2 c bufs =
            Chain.read_second_vectored r2 ⟨s1, c.second, true⟩ bufs ∧
          (Chain.poll_read_vectored r1 r2 c bufs).1.done_first = true) ∧
      (bufs.any (fun b => b ≠ 0) = false →
        Chain.poll_read_vectored r1 r2 c bufs =
            ({ c with first := s1 }, Poll.Ready (Except.ok 0)) ∧
          (Chain.poll_read_vectored r1 r2 c bufs).1.done_first = false) := by
  intro σ1 σ2 ε r1 r2 c bufs s1 hdf hr
  constructor
  · intro hany
    have hex : ∃ x ∈ bufs, ¬x = 0 := by simpa using hany
    constructor
    · simp [Chain.poll_read_vectored, hdf, hr, hex]
    · simp [Chain.poll_read_vectored, Chain.read_second_vectored, hdf, hr, hex]
  · intro hany
    have hno : ¬∃ x ∈ bufs, ¬x = 0 := by simpa using hany
    refine ⟨?_, ?_⟩ <;> simp [Chain.poll_read_vectored, hdf, hr, hno]

/-- Claim C6: `poll_fill_buf` returns the first source's internal buffer
while `done_first` is false and that buffer is non-empty; a completed
empty fill flips `done_first` and immediately retries against the second
source within the same call; and `consume` forwards the whole
acknowledgement to the currently active source, never split across both. -/
theorem claim_C6_chain_fill_buf_consume :
    (∀ (σ1 σ2 ε : Type) (f1 : σ1 → σ1 × Poll (Except ε (List Nat)))
      (f2 : σ2 → σ2 × Poll (Except ε (List Nat))) (c : Chain σ1 σ2)
      (s1 : σ1) (buf : List Nat),
      c.done_first = false →
      f1 c.first = (s1, Poll.Ready (Except.ok buf)) → buf ≠ [] →
      Chain.poll_fill_buf f1 f2 c =
          ({ c with first := s1 }, Poll.Ready (Except.ok buf)) ∧
        (Chain.poll_fill_buf f1 f2 c).1.done_first = false) ∧
    (∀ (σ1 σ2 ε : Type) (f1 : σ1 → σ1 × Poll (Except ε (List Nat)))
      (f2 : σ2 → σ2 × Poll (Except ε (List Nat))) (c : Chain σ1 σ2)
      (s1 : σ1),
      c.done_first = false →
      f1 c.first = (s1, Poll.Ready (Except.ok [])) →
      Chain.poll_fill_buf f1 f2 c =
          Chain.fill_second f2 ⟨s1, c.second, true⟩ ∧
        (Chain.poll_fill_buf f1 f2 c).1.done_first = true) ∧
    (∀ (σ1 σ2 ε : Type) (f1 : σ1 → σ1 × Poll (Except ε (List Nat)))
      (f2 : σ2 → σ2 × Poll (Except ε (List Nat))) (c : Chain σ1 σ2),
      c.done_first = true →
      Chain.poll_fill_buf f1 f2 c = Chain.fill_second f2 c) ∧
    (∀ (σ1 σ2 : Type) (c1 : σ1 → Nat → σ1) (c2 : σ2 → Nat → σ2)
      (c : Chain σ1 σ2) (amt : Nat),
      (c.done_first = false →
        Chain.consume c1 c2 c amt = { c with first := c1 c.first amt }) ∧
      (c.done_first = true →
        Chain.consume c1 c2 c amt = { c with second := c2 c.second amt })) := by
  refine ⟨?_, ?_, ?_, ?_⟩
  · intro σ1 σ2 ε f1 f2 c s1 buf hdf hf hne
    refine ⟨?_, ?_⟩ <;> simp [Chain.poll_fill_buf, hdf, hf, hne]
  · intro σ1 σ2 ε f1 f2 c s1 hdf hf
    refine ⟨?_, ?_⟩ <;>
      simp [Chain.poll_fill_buf, Chain.fill_second, hdf, hf]
  · intro σ1 σ2 ε f1 f2 c hdf
    simp [Chain.poll_fill_buf, hdf]
  · intro σ1 σ2 c1 c2 c amt
    refine ⟨fun hdf => ?_, fun hdf => ?_⟩ <;> simp [Chain.consume, hdf]

/-- Claim C4: `done_first` is monotonic: it starts false at construction,
and once true no operation of the `Chain` resets it; after the flip no
read, vectored read, fill, or consume ever touches the first source again,
and every operation is served exclusively by the second source. -/
theorem claim_C4_chain_done_first_monotonic :
    (∀ (σ1 σ2 : Type) (a : σ1) (b : σ2),
      (Chain.new a b : Chain σ1 σ2).done_first = false) ∧
    (∀ (σ1 σ2 ε : Type) (r1 : σ1 → Nat → σ1 × Poll (Except ε Nat))
      (r2 : σ2 → Nat → σ2 × Poll (Except ε Nat)) (c : Chain σ1 σ2)
      (buf : Nat),
      c.done_first = true →
      Chain.poll_read r1 r2 c buf = Chain.read_second r2 c buf ∧
        (Chain.poll_read r1 r2 c buf).1.first = c.first ∧
        (Chain.poll_read r1 r2 c buf).1.done_first = true) ∧
    (∀ (σ1 σ2 ε : Type) (r1 : σ1 → List Nat → σ1 × Poll (Except ε Nat))
      (r2 : σ2 → List Nat → σ2 × Poll (Except ε Nat)) (c : Chain σ1 σ2)
      (bufs : List Nat),
      c.done_first = true →
      Chain.poll_read_vectored r1 r2 c bufs =
          Chain.read_second_vectored r2 c bufs ∧
        (Chain.poll_read_vectored r1 r2 c bufs).1.first = c.first ∧
        (Chain.poll_read_vectored r1 r2 c bufs).1.done_first = true) ∧
    (∀ (σ1 σ2 ε : Type) (f1 : σ1 → σ1 × Poll (Except ε (List Nat)))
      (f2 : σ2 → σ2 × Poll (Except ε (List Nat))) (c : Chain σ1 σ2),
      c.done_first = true →
      Chain.poll_fill_buf f1 f2 c = Chain.fill_second f2 c ∧
        (Chain.poll_fill_buf f1 f2 c).1.first = c.first ∧
        (Chain.poll_fill_buf f1 f2 c).1.done_first = true) ∧
    (∀ (σ1 σ2 : Type) (c1 : σ1 → Nat → σ1) (c2 : σ2 → Nat → σ2)
      (c : Chain σ1 σ2) (amt : Nat),
      c.done_first = true →
      Chain.consume c1 c2 c amt = { c with second := c2 c.second amt } ∧
        (Chain.consume c1 c2 c amt).first = c.first ∧
        (Chain.consume c1 c2 c amt).done_first = true) := by
  refine ⟨?_, ?_, ?_, ?_, ?_⟩
  · intro σ1 σ2 a b
    rfl
  · intro σ1 σ2 ε r1 r2 c buf hdf
    refine ⟨?_, ?_, ?_⟩ <;>
      simp [Chain.poll_read, Chain.read_second, hdf]
  · intro σ1 σ2 ε r1 r2 c bufs hdf
    refine ⟨?_, ?_, ?_⟩ <;>
      simp [Chain.poll_read_vectored, Chain.read_second_vectored, hdf]
  · intro σ1 σ2 ε f1 f2 c hdf
    refine ⟨?_, ?_, ?_⟩ <;>
      simp [Chain.poll_fill_buf, Chain.fill_second, hdf]
  · intro σ1 σ2 c1 c2 c amt hdf
    refine ⟨?_, ?_, ?_⟩ <;> simp [Chain.consume, hdf]

/-- Concrete reader that always completes with `Ok n`. -/
def rdOk (n : Nat) : Unit → Nat → Unit × Poll (Except Unit Nat) :=
  fun s _ => (s, Poll.Ready (Except.ok n))

/-- Concrete reader that always completes with an error. -/
def rdErr : Unit → Nat → Unit × Poll (Except Unit Nat) :=
  fun s _ => (s, Poll.Ready (Except.error ()))

/-- Concrete vectored reader that always completes with `Ok n`. -/
def rdOkV (n : Nat) : Unit → List Nat → Unit × Poll (Except Unit Nat) :=
  fun s _ => (s, Poll.Ready (Except.ok n))

/-- Concrete vectored reader that always completes with an error. -/
def rdErrV : Unit → List Nat → Unit × Poll (Except Unit Nat) :=
  fun s _ => (s, Poll.Ready (Except.error ()))

/-- Concrete buffered reader whose fill completes with the given buffer. -/
def fbOk (l : List Nat) : Unit → Unit × Poll (Except Unit (List Nat)) :=
  fun s => (s, Poll.Ready (Except.ok l))

/-- Concrete consume acknowledgement sink. -/
def csNop : Unit → Nat → Unit := fun s _ => s

/-- Concrete instantiation of claim C3: zero-byte completed read into a
4-byte buffer switches and delegates; a 2-byte read and an error are
returned unchanged; with the cursor flipped, the call delegates. -/
theorem claim_C3_witness :
    (Chain.poll_read (rdOk 0) (rdOk 3) ⟨(), (), false⟩ 4 =
        Chain.read_second (rdOk 3) ⟨(), (), true⟩ 4 ∧
      (Chain.poll_read (rdOk 0) (rdOk 3) ⟨(), (), false⟩ 4).1.done_first =
        true) ∧
    Chain.poll_read (rdOk 2) (rdOk 3) ⟨(), (), false⟩ 4 =
      (⟨(), (), false⟩, Poll.Ready (Except.ok 2)) ∧
    Chain.poll_read rdErr (rdOk 3) ⟨(), (), false⟩ 4 =
      (⟨(), (), false⟩, Poll.Ready (Except.error ())) ∧
    Chain.poll_read (rdOk 9) (rdOk 3) ⟨(), (), true⟩ 4 =
      Chain.read_second (rdOk 3) ⟨(), (), true⟩ 4 := by
  refine ⟨?_, ?_, ?_, ?_⟩
  · exact claim_C3_chain_poll_read_switch.1 Unit Unit Unit (rdOk 0) (rdOk 3)
      ⟨(), (), false⟩ 4 () rfl (by decide) rfl
  · exact claim_C3_chain_poll_read_switch.2.1 Unit Unit Unit (rdOk 2) (rdOk 3)
      ⟨(), (), false⟩ 4 2 () rfl rfl (by decide)
  · exact claim_C3_chain_poll_read_switch.2.2.1 Unit Unit Unit rdErr (rdOk 3)
      ⟨(), (), false⟩ 4 () () rfl rfl
  · exact claim_C3_chain_poll_read_switch.2.2.2 Unit Unit Unit (rdOk 9)
      (rdOk 3) ⟨(), (), true⟩ 4 rfl

/-- Concrete instantiation of claim C7: a zero-byte completed read into a
zero-length buffer is returned as is and does not flip the cursor. -/
theorem claim_C7_witness :
    Chain.poll_read (rdOk 0) (rdOk 3) ⟨(), (), false⟩ 0 =
        (⟨(), (), false⟩, Poll.Ready (Except.ok 0)) ∧
      (Chain.poll_read (rdOk 0) (rdOk 3) ⟨(), (), false⟩ 0).1.done_first =
        false ∧
      (Chain.poll_read (rdOk 0) (rdOk 3) ⟨(), (), false⟩ 0).1.second = () := by
  exact claim_C7_chain_empty_buffer_no_flip Unit Unit Unit (rdOk 0) (rdOk 3)
    ⟨(), (), false⟩ () rfl rfl

/-- Concrete instantiation of claim C10: a completed error from the first
source is returned unchanged by both read entry points, with no flip. -/
theorem claim_C10_witness :
    (Chain.poll_read rdErr (rdOk 3) ⟨(), (), false⟩ 4 =
        (⟨(), (), false⟩, Poll.Ready (Except.error ())) ∧
      (Chain.poll_read rdErr (rdOk 3) ⟨(), (), false⟩ 4).1.done_first =
        false ∧
      (Chain.poll_read rdErr (rdOk 3) ⟨(), (), false⟩ 4).1.second = ()) ∧
    (Chain.poll_read_vectored rdErrV (rdOkV 3) ⟨(), (), false⟩ [2, 2] =
        (⟨(), (), false⟩, Poll.Ready (Except.error ())) ∧
      (Chain.poll_read_vectored rdErrV (rdOkV 3)
        ⟨(), (), false⟩ [2, 2]).1.done_first = false ∧
      (Chain.poll_read_vectored rdErrV (rdOkV 3)
        ⟨(), (), false⟩ [2, 2]).1.second = ()) := by
  constructor
  · exact claim_C10_chain_error_no_switch.1 Unit Unit Unit rdErr (rdOk 3)
      ⟨(), (), false⟩ 4 () () rfl rfl
  · exact claim_C10_chain_error_no_switch.2 Unit Unit Unit rdErrV (rdOkV 3)
      ⟨(), (), false⟩ [2, 2] () () rfl rfl

/-- Concrete instantiation of claim C5: a completed zero-byte vectored
read flips and delegates when some segment is non-empty (`[2, 2]`), and is
returned with no flip when all segments are empty (`[0, 0]`). -/
theorem claim_C5_witness :
    (Chain.poll_read_vectored (rdOkV 0) (rdOkV 3) ⟨(), (), false⟩ [2, 2] =
        Chain.read_second_vectored (rdOkV 3) ⟨(), (), true⟩ [2, 2] ∧
      (Chain.poll_read_vectored (rdOkV 0) (rdOkV 3)
        ⟨(), (), false⟩ [2, 2]).1.done_first = true) ∧
    (Chain.poll_read_vectored (rdOkV 0) (rdOkV 3) ⟨(), (), false⟩ [0, 0] =
        (⟨(), (), false⟩, Poll.Ready (Except.ok 0)) ∧
      (Chain.poll_read_vectored (rdOkV 0) (rdOkV 3)
        ⟨(), (), false⟩ [0, 0]).1.done_first = false) := by
  constructor
  · exact (claim_C5_chain_vectored_switch Unit Unit Unit (rdOkV 0) (rdOkV 3)
      ⟨(), (), false⟩ [2, 2] () rfl rfl).1 (by decide)
  · exact (claim_C5_chain_vectored_switch Unit Unit Unit (rdOkV 0) (rdOkV 3)
      ⟨(), (), false⟩ [0, 0] () rfl rfl).2 (by decide)

/-- Concrete instantiation of claim C6: a non-empty fill is returned with
no flip; an empty fill flips and retries the second source; with the
cursor flipped the fill delegates; consume goes wholly to the active
source. -/
theorem claim_C6_witness :
    (Chain.poll_fill_buf (fbOk [1, 2]) (fbOk [4]) ⟨(), (), false⟩ =
        (⟨(), (), false⟩, Poll.Ready (Except.ok [1, 2])) ∧
      (Chain.poll_fill_buf (fbOk [1, 2]) (fbOk [4])
        ⟨(), (), false⟩).1.done_first = false) ∧
    (Chain.poll_fill_buf (fbOk []) (fbOk [4]) ⟨(), (), false⟩ =
        Chain.fill_second (fbOk [4]) ⟨(), (), true⟩ ∧
      (Chain.poll_fill_buf (fbOk []) (fbOk [4])
        ⟨(), (), false⟩).1.done_first = true) ∧
    Chain.poll_fill_buf (fbOk [9]) (fbOk [4]) ⟨(), (), true⟩ =
      Chain.fill_second (fbOk [4]) ⟨(), (), true⟩ ∧
    (Chain.consume csNop csNop ⟨(), (), false⟩ 3 = ⟨(), (), false⟩ ∧
      Chain.consume csNop csNop ⟨(), (), true⟩ 3 = ⟨(), (), true⟩) := by
  refine ⟨?_, ?_, ?_, ?_, ?_⟩
  · exact claim_C6_chain_fill_buf_consume.1 Unit Unit Unit (fbOk [1, 2])
      (fbOk [4]) ⟨(), (), false⟩ () [1, 2] rfl rfl (by decide)
  · exact claim_C6_chain_fill_buf_consume.2.1 Unit Unit Unit (fbOk [])
      (fbOk [4]) ⟨(), (), false⟩ () rfl rfl
  · exact claim_C6_chain_fill_buf_consume.2.2.1 Unit Unit Unit (fbOk [9])
      (fbOk [4]) ⟨(), (), true⟩ rfl
  · exact (claim_C6_chain_fill_buf_consume.2.2.2 Unit Unit csNop csNop
      ⟨(), (), false⟩ 3).1 rfl
  · exact (claim_C6_chain_fill_buf_consume.2.2.2 Unit Unit csNop csNop
      ⟨(), (), true⟩ 3).2 rfl

/-- Concrete instantiation of claim C4: the cursor starts false at
construction and, once true, every operation keeps it true, leaves the
first source untouched and is served by the second source. -/
theorem claim_C4_witness :
    (Chain.new () () : Chain Unit Unit).done_first = false ∧
    (Chain.poll_read (rdOk 9) (rdOk 3) ⟨(), (), true⟩ 4 =
        Chain.read_second (rdOk 3) ⟨(), (), true⟩ 4 ∧
      (Chain.poll_read (rdOk 9) (rdOk 3) ⟨(), (), true⟩ 4).1.first = () ∧
      (Chain.poll_read (rdOk 9) (rdOk 3) ⟨(), (), true⟩ 4).1.done_first =
        true) ∧
    (Chain.poll_read_vectored (rdOkV 9) (rdOkV 3) ⟨(), (), true⟩ [2, 2] =
        Chain.read_second_vectored (rdOkV 3) ⟨(), (), true⟩ [2, 2] ∧
      (Chain.poll_read_vectored (rdOkV 9) (rdOkV 3)
        ⟨(), (), true⟩ [2, 2]).1.first = () ∧
      (Chain.poll_read_vectored (rdOkV 9) (rdOkV 3)
        ⟨(), (), true⟩ [2, 2]).1.done_first = true) ∧
    (Chain.poll_fill_buf (fbOk [9]) (fbOk [4]) ⟨(), (), true⟩ =
        Chain.fill_second (fbOk [4]) ⟨(), (), true⟩ ∧
      (Chain.poll_fill_buf (fbOk [9]) (fbOk [4]) ⟨(), (), true⟩).1.first =
        () ∧
      (Chain.poll_fill_buf (fbOk [9]) (fbOk [4])
        ⟨(), (), true⟩).1.done_first = true) ∧
    (Chain.consume csNop csNop ⟨(), (), true⟩ 3 = ⟨(), (), true⟩ ∧
      (Chain.consume csNop csNop ⟨(), (), true⟩ 3).first = () ∧
      (Chain.consume csNop csNop ⟨(), (), true⟩ 3).done_first = true) := by
  refine ⟨?_, ?_, ?_, ?_, ?_⟩
  · exact claim_C4_chain_done_first_monotonic.1 Unit Unit () ()
  · exact claim_C4_chain_done_first_monotonic.2.1 Unit Unit Unit (rdOk 9)
      (rdOk 3) ⟨(), (), true⟩ 4 rfl
  · exact claim_C4_chain_done_first_monotonic.2.2.1 Unit Unit Unit (rdOkV 9)
      (rdOkV 3) ⟨(), (), true⟩ [2, 2] rfl
  · exact claim_C4_chain_done_first_monotonic.2.2.2.1 Unit Unit Unit
      (fbOk [9]) (fbOk [4]) ⟨(), (), true⟩ rfl
  · exact claim_C4_chain_done_first_monotonic.2.2.2.2 Unit Unit csNop csNop
      ⟨(), (), true⟩ 3 rfl

/-! ## Spawn bridge, from `task/spawn.rs`

The injected task-launching facility is the capability
`spawn_obj : τ → Except ε Unit` (`Spawn::spawn_obj`, resp.
`LocalSpawn::spawn_local_obj`); `box` stands for the
`FutureObj::new(Box::new(·))` (resp. `LocalFutureObj`) injection into the
task-object type `τ`. -/

/-- `SpawnExt::spawn`: boxes the future into a task object and hands it to
the injected facility. -/
def SpawnExt.spawn {φ τ ε : Type} (spawn_obj : τ → Except ε Unit)
    (box : φ → τ) (future : φ) : Except ε Unit :=
  spawn_obj (box future)

/-- `SpawnExt::spawn_with_handle`.  `remote_handle` (defined in
`future/remote_handle.rs`, which is not part of the sources here; modelled
from the spec as an abstract operation that rewrites the task into the
channel-writing wrapper paired with the observer handle bound to that
channel) yields `(future, handle)`; the wrapper is spawned via `spawn`,
the `?` operator propagating a launch error, and on success the handle is
returned. -/
def SpawnExt.spawn_with_handle {φ0 φ τ ε η : Type}
    (spawn_obj : τ → Except ε Unit) (box : φ → τ)
    (remote_handle : φ0 → φ × η) (fut : φ0) : Except ε η :=
  let p := remote_handle fut
  match SpawnExt.spawn spawn_obj box p.1 with
  | Except.error e => Except.error e
  | Except.ok _ => Except.ok p.2

/-- `LocalSpawnExt::spawn_local`: same shape over `spawn_local_obj`. -/
def LocalSpawnExt.spawn_local {φ τ ε : Type}
    (spawn_local_obj : τ → Except ε Unit) (box : φ → τ) (future : φ) :
    Except ε Unit :=
  spawn_local_obj (box future)

/-- `LocalSpawnExt::spawn_local_with_handle`: same shape as
`spawn_with_handle` over `spawn_local`. -/
def LocalSpawnExt.spawn_local_with_handle {φ0 φ τ ε η : Type}
    (spawn_local_obj : τ → Except ε Unit) (box : φ → τ)
    (remote_handle : φ0 → φ × η) (fut : φ0) : Except ε η :=
  let p := remote_handle fut
  match LocalSpawnExt.spawn_local spawn_local_obj box p.1 with
  | Except.error e => Except.error e
  | Except.ok _ => Except.ok p.2

/-- Claim C8: `spawn_with_handle` (and its local variant) returns an error
exactly when the underlying spawn of the wrapped task returns a launch
error; in that case the same launch error is propagated and no handle is
produced; on success it returns the handle bound to the wrapped task's
one-shot channel (the handle component produced by `remote_handle`), the
wrapped task having been spawned successfully. -/
theorem claim_C8_spawn_with_handle_launch :
    (∀ (φ0 φ τ ε η : Type) (spawn_obj : τ → Except ε Unit) (box : φ → τ)
      (rh : φ0 → φ × η) (fut : φ0),
      (∀ e : ε,
        SpawnExt.spawn_with_handle spawn_obj box rh fut = Except.error e ↔
          SpawnExt.spawn spawn_obj box (rh fut).1 = Except.error e) ∧
      (∀ hd : η,
        SpawnExt.spawn_with_handle spawn_obj box rh fut = Except.ok hd →
          hd = (rh fut).2 ∧
            SpawnExt.spawn spawn_obj box (rh fut).1 = Except.ok ())) ∧
    (∀ (φ0 φ τ ε η : Type) (spawn_local_obj : τ → Except ε Unit)
      (box : φ → τ) (rh : φ0 → φ × η) (fut : φ0),
      (∀ e : ε,
        LocalSpawnExt.spawn_local_with_handle spawn_local_obj box rh fut =
            Except.error e ↔
          LocalSpawnExt.spawn_local spawn_local_obj box (rh fut).1 =
            Except.error e) ∧
      (∀ hd : η,
        LocalSpawnExt.spawn_local_with_handle spawn_local_obj box rh fut =
            Except.ok hd →
          hd = (rh fut).2 ∧
            LocalSpawnExt.spawn_local spawn_local_obj box (rh fut).1 =
              Except.ok ())) := by
  constructor
  · intro φ0 φ τ ε η spawn_obj box rh fut
    cases hs : SpawnExt.spawn spawn_obj box (rh fut).1 with
    | error e =>
      constructor
      · intro e2
        simp [SpawnExt.spawn_with_handle, hs]
      · intro hd hcon
        simp [SpawnExt.spawn_with_handle, hs] at hcon
    | ok u =>
      cases u
      constructor
      · intro e2
        simp [SpawnExt.spawn_with_handle, hs]
      · intro hd hok
        simp [SpawnExt.spawn_with_handle, hs] at hok
        refine ⟨hok.symm, ?_⟩
        rfl
  · intro φ0 φ τ ε η spawn_local_obj box rh fut
    cases hs : LocalSpawnExt.spawn_local spawn_local_obj box (rh fut).1 with
    | error e =>
      constructor
      · intro e2
        simp [LocalSpawnExt.spawn_local_with_handle, hs]
      · intro hd hcon
        simp [LocalSpawnExt.spawn_local_with_handle, hs] at hcon
    | ok u =>
      cases u
      constructor
      · intro e2
        simp [LocalSpawnExt.spawn_local_with_handle, hs]
      · intro hd hok
        simp [LocalSpawnExt.spawn_local_with_handle, hs] at hok
        refine ⟨hok.symm, ?_⟩
        rfl

/-- Concrete facility that accepts every task. -/
def spawnOkF : Nat → Except Nat Unit := fun _ => Except.ok ()

/-- Concrete facility that rejects every task with launch error `7`. -/
def spawnFailF : Nat → Except Nat Unit := fun _ => Except.error 7

/-- Concrete `remote_handle`: wrapper is the task itself, handle is its
successor. -/
def rhPair : Nat → Nat × Nat := fun n => (n, n + 1)

/-- Concrete instantiation of claim C8: with a rejecting facility the
launch error `7` is propagated by both variants; with an accepting
facility the handle produced by `remote_handle` (here `42` for task `41`)
is returned. -/
theorem claim_C8_witness :
    (SpawnExt.spawn_with_handle spawnFailF id rhPair 41 = Except.error 7 ↔
      SpawnExt.spawn spawnFailF id (rhPair 41).1 = Except.error 7) ∧
    (42 = (rhPair 41).2 ∧
      SpawnExt.spawn spawnOkF id (rhPair 41).1 = Except.ok ()) ∧
    (LocalSpawnExt.spawn_local_with_handle spawnFailF id rhPair 41 =
        Except.error 7 ↔
      LocalSpawnExt.spawn_local spawnFailF id (rhPair 41).1 =
        Except.error 7) ∧
    (42 = (rhPair 41).2 ∧
      LocalSpawnExt.spawn_local spawnOkF id (rhPair 41).1 = Except.ok ()) := by
  refine ⟨?_, ?_, ?_, ?_⟩
  · exact (claim_C8_spawn_with_handle_launch.1 Nat Nat Nat Nat Nat spawnFailF
      id rhPair 41).1 7
  · exact (claim_C8_spawn_with_handle_launch.1 Nat Nat Nat Nat Nat spawnOkF
      id rhPair 41).2 42 rfl
  · exact (claim_C8_spawn_with_handle_launch.2 Nat Nat Nat Nat Nat spawnFailF
      id rhPair 41).1 7
  · exact (claim_C8_spawn_with_handle_launch.2 Nat Nat Nat Nat Nat spawnOkF
      id rhPair 41).2 42 rfl

end FuturesRs
